import Mathlib

/-!
Shallow embedding of the MiniTwin credit-ops intent router and its fourteen
intent handlers (`skybar/intent_router.py`, `skybar/intents/*.py`,
`skybar/utils/*.py`).

Modelling conventions, used uniformly below:
* A pandas DataFrame is a `Table`: a list of `Row`s plus one presence flag per
  column the handlers mention.  `"X" in df.columns` becomes the flag.
* String-valued cells are the `astype(str)` view of the cell (a missing value
  arrives as the string "nan", exactly what `astype(str)` produces).
* The `Date` column holds the value after `coerce_date` /
  `pd.to_datetime(errors="coerce")`: `Option Int`, a civil day number since
  1970-01-01, `none` for NaT.  The spec's loader contract guarantees dates are
  handed to the core already parseable or absent, so `coerce_date` is the
  identity on this representation.
* An `Update Timestamp` cell is `Option Int`, seconds since the epoch.
* `Credit Request Total` holds the result of the numeric coercion
  `pd.to_numeric(errors="coerce")`: `Option ℚ`, `none` for NaN.  Float
  arithmetic is modelled exactly over `ℚ`; the float `sqrt` used only to
  *render* z-scores is modelled by the deterministic rational approximation
  `ratSqrtApprox` (the anomaly *filter* itself is embedded exactly, see
  `credit_anomalies` below).
* `pd.Timestamp.today().normalize()` is the ambient clock: every handler and
  the router take the day number `today` as an explicit parameter.
* Python exceptions (e.g. `KeyError` on a missing column) are `Except.error`
  with the exception text.
* `sort_values` is modelled by a stable sort; pandas' default quicksort leaves
  the relative order of equal keys unspecified, the stable order is one of its
  admissible outcomes.  `set` iteration order in `_extract_ids` is modelled as
  insertion order (it is an arbitrary but fixed order within a process).
-/

set_option maxRecDepth 4000

/-! ## Python string primitives (ASCII semantics) -/

/-- Python `str.lower()`. -/
def pyLower (s : String) : String := ⟨s.data.map Char.toLower⟩

/-- Python `str.upper()`. -/
def pyUpper (s : String) : String := ⟨s.data.map Char.toUpper⟩

/-- Python `str.strip()`: drop leading and trailing whitespace. -/
def pyStrip (s : String) : String :=
  ⟨((s.data.dropWhile Char.isWhitespace).reverse.dropWhile Char.isWhitespace).reverse⟩

/-- Bool-valued infix test on lists. -/
def isInfixB [BEq α] (pat l : List α) : Bool :=
  match l with
  | [] => pat.isEmpty
  | _ :: tl => List.isPrefixOf pat l || isInfixB pat tl

/-- Python `pat in s` substring test. -/
def pyContains (s pat : String) : Bool := isInfixB pat.data s.data

/-- Python `s.startswith(pat)`. -/
def pyStartsWith (s pat : String) : Bool := List.isPrefixOf pat.data s.data

/-- Python `s.replace(old, new)` for one-character `old` replaced by one character. -/
def pyReplaceChar (s : String) (old new : Char) : String :=
  ⟨s.data.map (fun c => if c = old then new else c)⟩

/-- Python `s.replace(old, "")` for a one-character `old`: drop every occurrence. -/
def pyDropChar (s : String) (old : Char) : String := ⟨s.data.filter (fun c => c ≠ old)⟩

/-- Python `s.replace("\n", " ")`. -/
def pyNewlineToSpace (s : String) : String := pyReplaceChar s '\n' ' '

/-- Python `"sep".join(parts)`. -/
def pyJoin (sep : String) (parts : List String) : String :=
  match parts with
  | [] => ""
  | p :: ps => ps.foldl (fun acc q => acc ++ sep ++ q) p

/-- Python `s[:n]` (character prefix). -/
def pyTake (s : String) (n : Nat) : String := ⟨s.data.take n⟩

/-- Python `len(s)` (characters). -/
def pyLen (s : String) : Nat := s.data.length

/-- `skybar.utils.matching.normalize`: `str(value).strip().upper()`
(the `None` input branch never arises for our string cells; named
`normalizeId` because `normalize` is taken by Mathlib). -/
def normalizeId (value : String) : String := pyUpper (pyStrip value)

/-- Value of a decimal digit character. -/
def digitVal (c : Char) : Nat := c.toNat - 48

/-- Python `int(...)` on a non-empty digit string. -/
def digitsToNat (ds : List Char) : Nat := ds.foldl (fun a c => a * 10 + digitVal c) 0

/-! ## Stable sorting, deduplication, grouping -/

/-- Insert `x` in front of the first element `y` with `le x y`;
together with `sortByLe` this is a stable insertion sort. -/
def sInsert (le : α → α → Bool) (x : α) : List α → List α
  | [] => [x]
  | y :: ys => if le x y then x :: y :: ys else y :: sInsert le x ys

/-- Stable insertion sort: equal-key elements keep their original order
(models `sort_values`, whose tie order we fix to the stable one). -/
def sortByLe (le : α → α → Bool) : List α → List α
  | [] => []
  | x :: xs => sInsert le x (sortByLe le xs)

/-- First-occurrence deduplication (pandas `Series.unique`). -/
def dedupFirst [BEq α] : List α → List α
  | [] => []
  | x :: xs => x :: (dedupFirst (xs.filter (fun y => ¬ (y == x))))
termination_by l => l.length
decreasing_by
  simp only [List.length_cons]
  exact Nat.lt_succ_of_le (List.length_filter_le _ _)

/-- Number of distinct values (pandas `Series.nunique`). -/
def nunique [BEq α] (l : List α) : Nat := (dedupFirst l).length

/-! ## Civil calendar arithmetic (Howard Hinnant's algorithms) -/

/-- Day number since 1970-01-01 of the civil date `(y, m, d)`. -/
def daysFromCivil (y m d : Int) : Int :=
  let y2 := if m ≤ 2 then y - 1 else y
  let era := Int.fdiv y2 400
  let yoe := y2 - era * 400
  let mp := Int.emod (m + 9) 12
  let doy := Int.fdiv (153 * mp + 2) 5 + d - 1
  let doe := yoe * 365 + Int.fdiv yoe 4 - Int.fdiv yoe 100 + doy
  era * 146097 + doe - 719468

/-- Civil date `(y, m, d)` of a day number since 1970-01-01. -/
def civilFromDays (z : Int) : Int × Int × Int :=
  let z2 := z + 719468
  let era := Int.fdiv z2 146097
  let doe := z2 - era * 146097
  let yoe := Int.fdiv (doe - Int.fdiv doe 1460 + Int.fdiv doe 36524 - Int.fdiv doe 146096) 365
  let y := yoe + era * 400
  let doy := doe - (365 * yoe + Int.fdiv yoe 4 - Int.fdiv yoe 100)
  let mp := Int.fdiv (5 * doy + 2) 153
  let d := doy - Int.fdiv (153 * mp + 2) 5 + 1
  let m := mp + (if mp < 10 then 3 else -9)
  (if m ≤ 2 then y + 1 else y, m, d)

/-- First day of the month containing day `z` (`Timestamp.replace(day=1)`). -/
def firstOfMonth (z : Int) : Int :=
  let c := civilFromDays z
  daysFromCivil c.1 c.2.1 1

/-- Gregorian leap year. -/
def isLeapYear (y : Int) : Bool :=
  (Int.emod y 4 = 0 && Int.emod y 100 ≠ 0) || Int.emod y 400 = 0

/-- Days in month `m` of year `y`. -/
def daysInMonth (y m : Int) : Int :=
  if m = 2 then (if isLeapYear y then 29 else 28)
  else if m = 4 ∨ m = 6 ∨ m = 9 ∨ m = 11 then 30
  else 31

/-- Zero-padded decimal rendering of a non-negative integer to width `w`. -/
def padNum (w : Nat) (n : Int) : String :=
  let s := toString n.toNat
  (String.mk (List.replicate (w - s.length) '0')) ++ s

/-- `strftime("%Y-%m-%d")` of a day number. -/
def fmtDate (z : Int) : String :=
  let c := civilFromDays z
  padNum 4 c.1 ++ "-" ++ padNum 2 c.2.1 ++ "-" ++ padNum 2 c.2.2

/-- `strftime("%Y-%m-%d %H:%M:%S")` of a second count since the epoch. -/
def fmtTimestamp (ts : Int) : String :=
  let day := Int.fdiv ts 86400
  let sod := (ts - day * 86400).toNat
  fmtDate day ++ " " ++ padNum 2 (sod / 3600) ++ ":" ++ padNum 2 ((sod / 60) % 60)
    ++ ":" ++ padNum 2 (sod % 60)

/-- Smallest whole-second `pd.Timestamp` (1677-09-21 00:12:44). -/
def tsMinSec : Int := daysFromCivil 1677 9 21 * 86400 + (12 * 60 + 44)

/-- Largest whole-second `pd.Timestamp` (2262-04-11 23:47:16). -/
def tsMaxSec : Int := daysFromCivil 2262 4 11 * 86400 + (23 * 3600 + 47 * 60 + 16)

/-! ## Number formatting (Python format specs used by the handlers) -/

/-- Round `x` to the nearest integer, ties to even (Python float formatting). -/
def roundHalfEven (x : ℚ) : Int :=
  let fl := ⌊x⌋
  let fr := x - fl
  if fr < 1/2 then fl
  else if 1/2 < fr then fl + 1
  else if Int.emod fl 2 = 0 then fl else fl + 1

/-- Helper for `commaGroup`: group a reversed digit list in threes. -/
def commaRev : List Char → List Char
  | [] => []
  | l =>
    if l.length ≤ 3 then l else l.take 3 ++ ',' :: commaRev (l.drop 3)
termination_by l => l.length
decreasing_by
  simp only [List.length_drop]
  omega

/-- Comma-group the decimal digits of a natural number (Python `{:,}`). -/
def commaGroup (n : Nat) : String := ⟨(commaRev (toString n).data.reverse).reverse⟩

/-- Python `f"{val:,.2f}"`. -/
def fmtFixed2 (x : ℚ) : String :=
  let cents := roundHalfEven (x * 100)
  let sign := if cents < 0 then "-" else ""
  let a := cents.natAbs
  sign ++ commaGroup (a / 100) ++ "." ++ padNum 2 (Int.ofNat (a % 100))

/-- Python `f"{val:+.1f}"`. -/
def fmtSigned1 (x : ℚ) : String :=
  let tenths := roundHalfEven (x * 10)
  let sign := if tenths < 0 then "-" else "+"
  let a := tenths.natAbs
  sign ++ toString (a / 10) ++ "." ++ toString (a % 10)

/-- Python `f"{val:+.2f}"`. -/
def fmtSigned2 (x : ℚ) : String :=
  let cents := roundHalfEven (x * 100)
  let sign := if cents < 0 then "-" else "+"
  let a := cents.natAbs
  sign ++ toString (a / 100) ++ "." ++ padNum 2 (Int.ofNat (a % 100))

/-- Python `f"{n:+}"` on an integer. -/
def fmtSignedInt (n : Int) : String :=
  (if n < 0 then "-" else "+") ++ toString n.natAbs

/-- `skybar.utils.formatting.format_money` on a numeric value:
`f"${val:,.2f}"` (the conversion of an actual number never fails). -/
def format_money (x : ℚ) : String := "$" ++ fmtFixed2 x

/-- `format_money` applied to an optional number, as the handlers do after a
`pd.to_numeric` coercion or a `.get` with `None` default: `float(None)` raises
`TypeError`, so `format_money(None)` returns `str(None) = "None"`. -/
def format_money_opt : Option ℚ → String
  | some v => format_money v
  | none => "None"

/-- Deterministic rational stand-in for the float square root, used only where
the source *renders* a z-score (never in the anomaly filter itself). -/
def ratSqrtApprox (q : ℚ) : ℚ := (Nat.sqrt (q * 10 ^ 12).floor.toNat : ℚ) / 10 ^ 6

/-! ## Data model -/

/-- One DataFrame row.  String cells are the `astype(str)` view; `date` is the
`Date` cell after date coercion (day number / NaT); `total` is the
`Credit Request Total` cell after numeric coercion (NaN ↦ `none`); `updateTS`
is an explicit `Update Timestamp` cell in seconds, when that column exists. -/
structure Row where
  ticketNumber : String := "nan"
  customerNumber : String := "nan"
  invoiceNumber : String := "nan"
  itemNumber : String := "nan"
  salesRep : String := "nan"
  date : Option Int := none
  status : String := "nan"
  rtn : String := "nan"
  total : Option ℚ := none
  reason : String := ""
  updateTS : Option Int := none
deriving DecidableEq, Repr

/-- A DataFrame: presence flag per column used by the handlers, plus rows.
`hasX = false` models `"X" not in df.columns`. -/
structure Table where
  hasTicket : Bool := false
  hasCustomer : Bool := false
  hasInvoice : Bool := false
  hasItem : Bool := false
  hasRep : Bool := false
  hasDate : Bool := false
  hasStatus : Bool := false
  hasRTN : Bool := false
  hasTotal : Bool := false
  hasReason : Bool := false
  hasUpdateTS : Bool := false
  rows : List Row := []
deriving DecidableEq, Repr

/-- The module-level mutable state of `skybar.intents.ticket_requests`:
`LAST_TICKET_LOOKUP` holds the subtable of the most recent ticket lookup
(`None` ↦ `none`). -/
structure GlobalState where
  lastTicketLookup : Option (List Row) := none
deriving DecidableEq, Repr

/-- `IntentReturn = Union[None, str, Tuple[str, pd.DataFrame]]`
(`skybar/intent_router.py`). -/
inductive IntentReturn where
  | absent
  | text (s : String)
  | pair (s : String) (tbl : List Row)
deriving DecidableEq, Repr

/-- Column accessors with `Series.get` defaults: `r.get("X", "N/A")` yields the
default when the column is absent. -/
def getTicket (t : Table) (r : Row) : String := if t.hasTicket then r.ticketNumber else "N/A"

/-- `r.get("Customer Number", "N/A")`. -/
def getCustomer (t : Table) (r : Row) : String := if t.hasCustomer then r.customerNumber else "N/A"

/-- `r.get("Invoice Number", "N/A")`. -/
def getInvoice (t : Table) (r : Row) : String := if t.hasInvoice then r.invoiceNumber else "N/A"

/-- `r.get("Item Number", "N/A")`. -/
def getItem (t : Table) (r : Row) : String := if t.hasItem then r.itemNumber else "N/A"

/-- `r.get("Status", "N/A")`. -/
def getStatus (t : Table) (r : Row) : String := if t.hasStatus then r.status else "N/A"

/-- The `Date` cell, absent when the column is missing. -/
def dateOf (t : Table) (r : Row) : Option Int := if t.hasDate then r.date else none

/-- The coerced `Credit Request Total` cell, absent when the column is missing. -/
def totalOf (t : Table) (r : Row) : Option ℚ := if t.hasTotal then r.total else none

/-! ## Regex scanners

Each scanner implements exactly one regular expression from the source, with
Python `re` leftmost / greedy / non-overlapping-`findall` semantics, by direct
recursion over the character list (a `fuel` argument, initialised to the list
length, makes the recursion structural; it never runs out). -/

/-- Split a maximal leading digit run off a character list. -/
def splitDigits : List Char → List Char × List Char
  | [] => ([], [])
  | c :: rest =>
    if c.isDigit then
      let p := splitDigits rest
      (c :: p.1, p.2)
    else ([], c :: rest)

/-- Maximal leading whitespace run. -/
def splitSpaces : List Char → List Char × List Char
  | [] => ([], [])
  | c :: rest =>
    if c.isWhitespace then
      let p := splitSpaces rest
      (c :: p.1, p.2)
    else ([], c :: rest)

/-- Case-insensitive literal-prefix test (the literal is given lowercase). -/
def ciPrefix : List Char → List Char → Option (List Char)
  | [], rest => some rest
  | _, [] => none
  | p :: ps, c :: cs => if c.toLower = p then ciPrefix ps cs else none

/-- `re.findall(r"R-\d{3,}", query, flags=IGNORECASE)` (ticket_requests):
all non-overlapping matches, scanning left to right, `\d{3,}` greedy. -/
def scanTickets3 (fuel : Nat) (cs : List Char) : List (List Char) :=
  match fuel, cs with
  | 0, _ => []
  | _, [] => []
  | fuel + 1, c :: rest =>
    if c = 'R' ∨ c = 'r' then
      match rest with
      | c2 :: rest2 =>
        if c2 = '-' then
          let p := splitDigits rest2
          if 3 ≤ p.1.length then (c :: '-' :: p.1) :: scanTickets3 fuel p.2
          else scanTickets3 fuel rest
        else scanTickets3 fuel rest
      | [] => scanTickets3 fuel rest
    else scanTickets3 fuel rest

/-- `re.findall(r"R-\d{3,}", query, flags=IGNORECASE)` on a string. -/
def findTickets3 (s : String) : List String :=
  (scanTickets3 s.data.length s.data).map String.mk

/-- `re.search(r"(R-\d+)", query, flags=IGNORECASE)` (ticket_status):
first match, `\d+` greedy. -/
def scanTicket1 : List Char → Option (List Char)
  | [] => none
  | c :: rest =>
    if c = 'R' ∨ c = 'r' then
      match rest with
      | c2 :: rest2 =>
        if c2 = '-' then
          let p := splitDigits rest2
          if 1 ≤ p.1.length then some (c :: '-' :: p.1) else scanTicket1 rest
        else scanTicket1 rest
      | [] => scanTicket1 rest
    else scanTicket1 rest

/-- `re.search(r"(R-\d+)", s, flags=IGNORECASE)` on a string. -/
def searchTicket1 (s : String) : Option String := (scanTicket1 s.data).map String.mk

/-- Python `\w` word character (ASCII). -/
def isWordChar (c : Char) : Bool := c.isAlphanum || c = '_'

/-- No word character on the left of the current position (`\b`). -/
def noWordBefore : Option Char → Bool
  | none => true
  | some p => ! isWordChar p

/-- No word character at the head of the remaining input (`\b`). -/
def noWordAt : List Char → Bool
  | [] => true
  | d :: _ => ! isWordChar d

/-- `re.findall(r"\bR-\d{3,}\b", query, IGNORECASE)` (record_lookup):
`prev` is the character before the current position, for the `\b` tests. -/
def scanTicketsB (fuel : Nat) (prev : Option Char) (cs : List Char) : List (List Char) :=
  match fuel, cs with
  | 0, _ => []
  | _, [] => []
  | fuel + 1, c :: rest =>
    if ((c == 'R') || (c == 'r')) && noWordBefore prev then
      match rest with
      | '-' :: rest2 =>
        let p := splitDigits rest2
        if decide (3 ≤ p.1.length) && noWordAt p.2 then
          (c :: '-' :: p.1) :: scanTicketsB fuel p.1.getLast? p.2
        else scanTicketsB fuel (some c) rest
      | _ => scanTicketsB fuel (some c) rest
    else scanTicketsB fuel (some c) rest

/-- `re.findall(r"\bINV-?\d{4,}\b", query, IGNORECASE)` (record_lookup). -/
def scanInvB (fuel : Nat) (prev : Option Char) (cs : List Char) : List (List Char) :=
  match fuel, cs with
  | 0, _ => []
  | _, [] => []
  | fuel + 1, c :: rest =>
    if noWordBefore prev then
      match ciPrefix ['i', 'n', 'v'] (c :: rest) with
      | some rest3 =>
        let digs := match rest3 with
          | '-' :: rest4 => rest4
          | _ => rest3
        let dash : List Char := match rest3 with
          | '-' :: _ => ['-']
          | _ => []
        let p := splitDigits digs
        if decide (4 ≤ p.1.length) && noWordAt p.2 then
          (List.take 3 (c :: rest) ++ dash ++ p.1) :: scanInvB fuel p.1.getLast? p.2
        else scanInvB fuel (some c) rest
      | none => scanInvB fuel (some c) rest
    else scanInvB fuel (some c) rest

/-- `re.findall(r"\b\d{6,}\b", query)` (record_lookup). -/
def scanLongNum (fuel : Nat) (prev : Option Char) (cs : List Char) : List (List Char) :=
  match fuel, cs with
  | 0, _ => []
  | _, [] => []
  | fuel + 1, c :: rest =>
    if c.isDigit && noWordBefore prev then
      let p := splitDigits (c :: rest)
      if decide (6 ≤ p.1.length) && noWordAt p.2 then
        p.1 :: scanLongNum fuel p.1.getLast? p.2
      else scanLongNum fuel (some c) rest
    else scanLongNum fuel (some c) rest

/-- Characters allowed in the customer-token group `[A-Za-z0-9_-]`. -/
def isCustTokChar (c : Char) : Bool := c.isAlphanum || c = '_' || c = '-'

/-- `\s+([A-Za-z0-9_-]+)`: at least one whitespace, then a non-empty greedy
token. -/
def tokenAfterWs (cs : List Char) : Option (List Char) :=
  let p := splitSpaces cs
  if p.1.isEmpty then none
  else
    let t := p.2.takeWhile isCustTokChar
    if t.isEmpty then none else some t

/-- The greedy `(?:\s+number)?` branch of the customer regex, including the
mandatory `\s+` and token after it; `none` means this branch fails and the
engine backtracks to the skipped-optional branch. -/
def tryNumberBranch (cs : List Char) : Option (List Char) :=
  let p := splitSpaces cs
  if p.1.isEmpty then none
  else
    match ciPrefix ['n', 'u', 'm', 'b', 'e', 'r'] p.2 with
    | some afterNum => tokenAfterWs afterNum
    | none => none

/-- `re.search(r"customer(?:\s+number)?\s+([A-Za-z0-9_-]+)", query, IGNORECASE)`
(customer_tickets): the captured token of the leftmost match. -/
def scanCustomerTok : List Char → Option (List Char)
  | [] => none
  | c :: rest =>
    match ciPrefix ['c', 'u', 's', 't', 'o', 'm', 'e', 'r'] (c :: rest) with
    | some afterCust =>
      (match tryNumberBranch afterCust with
       | some tok => some tok
       | none =>
         match tokenAfterWs afterCust with
         | some tok => some tok
         | none => scanCustomerTok rest)
    | none => scanCustomerTok rest

/-- `\s+\d+\s+day` tail used by the aging trigger and threshold regexes:
whitespace, digits, whitespace, then the literal `day`; returns the digit
group. -/
def wsNumWsDay (cs : List Char) : Option (List Char) :=
  let w1 := splitSpaces cs
  if w1.1.isEmpty then none
  else
    let dg := splitDigits w1.2
    if dg.1.isEmpty then none
    else
      let w2 := splitSpaces dg.2
      if w2.1.isEmpty then none
      else
        match w2.2 with
        | 'd' :: 'a' :: 'y' :: _ => some dg.1
        | _ => none

/-- `re.search(r"\bover\s+\d+\s+day", q_low)` (credit_aging trigger). -/
def scanOverDayB (prev : Option Char) : List Char → Bool
  | [] => false
  | c :: rest =>
    (noWordBefore prev
      && (match ciPrefix ['o', 'v', 'e', 'r'] (c :: rest) with
          | some afterOver => (wsNumWsDay afterOver).isSome
          | none => false))
    || scanOverDayB (some c) rest

/-- `re.search(r"older than\s+\d+\s+day", q_low)` (credit_aging trigger). -/
def scanOlderThanDay : List Char → Bool
  | [] => false
  | c :: rest =>
    (match ciPrefix ['o', 'l', 'd', 'e', 'r', ' ', 't', 'h', 'a', 'n'] (c :: rest) with
     | some after => (wsNumWsDay after).isSome
     | none => false)
    || scanOlderThanDay rest

/-- `re.search(r"(?:over|older than)\s+(\d+)\s+day", q_low)` (credit_aging
threshold): digit group of the leftmost match, the alternation trying `over`
first at each position. -/
def scanAgingThreshold : List Char → Option (List Char)
  | [] => none
  | c :: rest =>
    match ciPrefix ['o', 'v', 'e', 'r'] (c :: rest) with
    | some afterOver =>
      (match wsNumWsDay afterOver with
       | some dg => some dg
       | none =>
         match ciPrefix ['o', 'l', 'd', 'e', 'r', ' ', 't', 'h', 'a', 'n'] (c :: rest) with
         | some after =>
           (match wsNumWsDay after with
            | some dg => some dg
            | none => scanAgingThreshold rest)
         | none => scanAgingThreshold rest)
    | none =>
      match ciPrefix ['o', 'l', 'd', 'e', 'r', ' ', 't', 'h', 'a', 'n'] (c :: rest) with
      | some after =>
        (match wsNumWsDay after with
         | some dg => some dg
         | none => scanAgingThreshold rest)
      | none => scanAgingThreshold rest

/-- `re.search(r"(\d+)\s+day", q_low)` (stalled_tickets threshold): the digit
group of the leftmost match (`\d+` can only match a full maximal digit run
here, since a run followed by more digits cannot be followed by whitespace). -/
def scanNumDay : List Char → Option (List Char)
  | [] => none
  | c :: rest =>
    if c.isDigit then
      let p := splitDigits (c :: rest)
      let w := splitSpaces p.2
      if w.1.isEmpty then scanNumDay rest
      else
        match w.2 with
        | 'd' :: 'a' :: 'y' :: _ => some p.1
        | _ => scanNumDay rest
    else scanNumDay rest

/-- The `\s+to\s+today` tail of the credit_activity window regex. -/
def tailToToday (cs : List Char) : Bool :=
  let w1 := splitSpaces cs
  if w1.1.isEmpty then false
  else
    match w1.2 with
    | 't' :: 'o' :: rest2 =>
      let w2 := splitSpaces rest2
      if w2.1.isEmpty then false
      else
        match w2.2 with
        | 't' :: 'o' :: 'd' :: 'a' :: 'y' :: _ => true
        | _ => false
    | _ => false

/-- Lazy expansion of the group `(.+?)` until `\s+to\s+today` matches. -/
def lazyGroup (acc : List Char) : List Char → Option (List Char)
  | [] => none
  | c :: rest =>
    if tailToToday rest then some (c :: acc).reverse
    else lazyGroup (c :: acc) rest

/-- `re.search(r"from\s+(.+?)\s+to\s+today", q_clean)` (credit_activity):
the captured group of the leftmost match, `\s+` after `from` taken greedily
(see the module comment on the one inconsequential backtracking corner). -/
def scanFromToToday : List Char → Option (List Char)
  | [] => none
  | c :: rest =>
    match ciPrefix ['f', 'r', 'o', 'm'] (c :: rest) with
    | some afterFrom =>
      let w := splitSpaces afterFrom
      if w.1.isEmpty then scanFromToToday rest
      else
        (match lazyGroup [] w.2 with
         | some g => some g
         | none => scanFromToToday rest)
    | none => scanFromToToday rest

/-- Take exactly `n` decimal digits. -/
def grabN : Nat → List Char → Option (List Char × List Char)
  | 0, cs => some ([], cs)
  | _ + 1, [] => none
  | n + 1, c :: rest =>
    if c.isDigit then (grabN n rest).map (fun p => (c :: p.1, p.2)) else none

/-- The body of `\[(\d{4}-\d{2}-\d{2} \d{2}:\d{2}:\d{2})\]` directly after a
`[`: the six numeric fields, or `none`. -/
def tsAt (cs : List Char) : Option (Nat × Nat × Nat × Nat × Nat × Nat) := do
  let (y, r1) ← grabN 4 cs
  let r1' ← match r1 with | '-' :: t => some t | _ => none
  let (mo, r2) ← grabN 2 r1'
  let r2' ← match r2 with | '-' :: t => some t | _ => none
  let (d, r3) ← grabN 2 r2'
  let r3' ← match r3 with | ' ' :: t => some t | _ => none
  let (h, r4) ← grabN 2 r3'
  let r4' ← match r4 with | ':' :: t => some t | _ => none
  let (mi, r5) ← grabN 2 r4'
  let r5' ← match r5 with | ':' :: t => some t | _ => none
  let (s, r6) ← grabN 2 r5'
  let _ ← match r6 with | ']' :: t => some t | _ => none
  pure (digitsToNat y, digitsToNat mo, digitsToNat d, digitsToNat h,
        digitsToNat mi, digitsToNat s)

/-- First bracketed timestamp in a `Status` string
(`Series.str.extract(pattern)[0]`). -/
def scanBracketTS : List Char → Option (Nat × Nat × Nat × Nat × Nat × Nat)
  | [] => none
  | '[' :: rest =>
    (match tsAt rest with
     | some v => some v
     | none => scanBracketTS rest)
  | _ :: rest => scanBracketTS rest

/-- `pd.to_datetime(errors="coerce")` on the six extracted fields: calendar
validation plus the `pd.Timestamp` nanosecond range; seconds since the epoch,
`none` for NaT. -/
def toDatetimeSec (y mo d h mi s : Nat) : Option Int :=
  if 1 ≤ mo ∧ mo ≤ 12 ∧ 1 ≤ d ∧ (d : Int) ≤ daysInMonth (y : Int) (mo : Int)
      ∧ h ≤ 23 ∧ mi ≤ 59 ∧ s ≤ 59 then
    let sec := daysFromCivil (y : Int) (mo : Int) (d : Int) * 86400
      + (h : Int) * 3600 + (mi : Int) * 60 + (s : Int)
    if tsMinSec ≤ sec ∧ sec ≤ tsMaxSec then some sec else none
  else none

/-- Derive an update timestamp from a `Status` cell: first bracketed
`[YYYY-MM-DD HH:MM:SS]`, coerced by `pd.to_datetime(errors="coerce")`. -/
def extractUpdateTS (status : String) : Option Int :=
  match scanBracketTS status.data with
  | some (y, mo, d, h, mi, s) => toDatetimeSec y mo d h mi s
  | none => none

/-! ## Small shared helpers for the handlers -/

/-- Truncate with ellipsis: Python `s[:cut] + "..." if len(s) > limit else s`. -/
def truncEllipsis (limit cut : Nat) (s : String) : String :=
  if limit < pyLen s then pyTake s cut ++ "..." else s

/-- Remove every occurrence of a non-empty substring (Python
`s.replace(pat, "")`). -/
def dropSub (fuel : Nat) (pat cs : List Char) : List Char :=
  match fuel, cs with
  | 0, l => l
  | _, [] => []
  | fuel + 1, c :: rest =>
    if List.isPrefixOf pat (c :: rest) then
      dropSub fuel pat (List.drop pat.length (c :: rest))
    else c :: dropSub fuel pat rest

/-- Python `s.replace(pat, "")` on strings. -/
def pyDropSub (s pat : String) : String := ⟨dropSub s.data.length pat.data s.data⟩

/-- Modelled external collaborator: `dateutil.parser.parse(raw, fuzzy=True)`
followed by `pd.Timestamp(dt.date())`.  The library (not repository code)
accepts many date shapes; we model the ISO `YYYY-MM-DD` form, everything else
as a parse failure (the enclosing `try/except` turns failures into `None`).
No claim depends on this collaborator's exact behaviour. -/
def dateutilParseISO (s : String) : Option Int := do
  let (y, r1) ← grabN 4 s.data
  let r1' ← match r1 with | '-' :: t => some t | _ => none
  let (mo, r2) ← grabN 2 r1'
  let r2' ← match r2 with | '-' :: t => some t | _ => none
  let (d, r3) ← grabN 2 r2'
  let _ ← match r3 with | [] => some () | _ => none
  let sec ← toDatetimeSec (digitsToNat y) (digitsToNat mo) (digitsToNat d) 0 0 0
  pure (Int.fdiv sec 86400)

/-- Ascending `sort_values("Date")` comparator, `NaT` placed last
(`na_position="last"`). -/
def dateAscLe (r1 r2 : Row) : Bool :=
  match r1.date, r2.date with
  | some a, some b => a ≤ b
  | some _, none => true
  | none, some _ => false
  | none, none => true

/-- Descending `sort_values("Date", ascending=False)` comparator, `NaT` last. -/
def dateDescLe (r1 r2 : Row) : Bool :=
  match r1.date, r2.date with
  | some a, some b => b ≤ a
  | some _, none => true
  | none, some _ => false
  | none, none => true

/-! ## Intent handlers

Each of the thirteen handlers after `intent_ticket_requests` is a function
`String → Table → Int → Except String (Option String)`: per its source
annotation `-> str | None` it returns text or "not mine" (`none`), and
`Except.error` models a Python exception escaping the handler.  The ambient
clock `today` (`pd.Timestamp.today().normalize()`) is an explicit argument.
`intent_ticket_requests` additionally reports its write to the module global
`LAST_TICKET_LOOKUP` (`none` = untouched, `some v` = set to `v`); it is the
only handler that touches that global, and it never raises. -/

/-- `skybar.intents.ticket_requests.intent_ticket_requests`. -/
def intent_ticket_requests (query : String) (df : Table) :
    Option String × Option (Option (List Row)) :=
  let q_low := pyLower query
  if ! pyContains q_low "ticket" && ! pyContains q_low "r-" then (none, none)
  else
    let ms := findTickets3 query
    if ms.isEmpty then (none, none)
    else
      let ticket_ids := ms.map (fun m => pyStrip (pyUpper m))
      if ! df.hasTicket then
        (some "I can\x27t find ticket details because the `Ticket Number` column is missing.",
         none)
      else
        let step := fun (acc : List String × Option (List Row)) (tid : String) =>
          let subset := df.rows.filter (fun r => pyStrip (pyUpper r.ticketNumber) == tid)
          if subset.isEmpty then
            (acc.1 ++ ["❌ No records found for **" ++ tid ++ "**."], acc.2)
          else
            (acc.1 ++
              ["📄 **Found " ++ toString subset.length ++ " record(s) for ticket "
                ++ tid ++ ".**\nDisplaying full table below 👇"],
             some subset)
        let res := ticket_ids.foldl step ([], none)
        (if res.1.isEmpty then none else some (pyJoin "\n\n" res.1), some res.2)

/-- One rendered row line of `intent_ticket_status`.  (`float()` on the raw
`Credit Request Total` cell succeeds exactly when the numeric coercion does in
this model; the bare `except` then prints "N/A".) -/
def ticketStatusRowLine (df : Table) (r : Row) : String :=
  let dt_str := if df.hasDate then
      (match r.date with | some d => fmtDate d | none => "NaT")
    else "None"
  let status := getStatus df r
  let inv := getInvoice df r
  let item := getItem df r
  let amt_str := match (if df.hasTotal then r.total else none) with
    | some v => format_money v
    | none => "N/A"
  let reason := truncEllipsis 120 117
    (pyStrip (pyNewlineToSpace (if df.hasReason then r.reason else "")))
  "- **" ++ dt_str ++ "** | Invoice: **" ++ inv ++ "** | Item: **" ++ item
    ++ "** | Amount: **" ++ amt_str ++ "** | Status: _" ++ status ++ "_\n  • " ++ reason

/-- `skybar.intents.ticket_status.intent_ticket_status`.  Note the unguarded
`df["Ticket Number"]` access: a missing column raises `KeyError`. -/
def intent_ticket_status (query : String) (df : Table) (_today : Int) :
    Except String (Option String) :=
  match searchTicket1 query with
  | none => .ok none
  | some m =>
    let ticket := pyUpper m
    if ! df.hasTicket then .error "KeyError: \x27Ticket Number\x27"
    else
      let all_rows := df.rows.filter (fun r => pyUpper r.ticketNumber == ticket)
      if all_rows.isEmpty then
        .ok (some ("I couldn\x27t find any records for ticket **" ++ ticket ++ "**."))
      else
        let sorted := if df.hasDate then sortByLe dateAscLe all_rows else all_rows
        let first := sorted.headD {}
        let date_str := match (if df.hasDate then first.date else none) with
          | some d => fmtDate d
          | none => "Unknown date"
        let total_sum : Option ℚ :=
          if df.hasTotal then some (all_rows.filterMap Row.total).sum else none
        let out := ["🧾 **Details for ticket " ++ ticket ++ "**\n",
          "- Customer: **" ++ getCustomer df first ++ "**",
          "- First Date Seen: **" ++ date_str ++ "**",
          "- Total credit across all related entries: **"
            ++ format_money_opt total_sum ++ "**",
          "",
          "📋 **All matching entries (up to 20):**"]
        .ok (some (pyJoin "\n" (out ++ (sorted.take 20).map (ticketStatusRowLine df))))

/-- `skybar.intents.record_lookup._norm` per cell:
`astype(str).str.strip().str.upper().str.replace(" ", "")`. -/
def normRL (s : String) : String := pyDropChar (pyUpper (pyStrip s)) ' '

/-- `skybar.intents.record_lookup._extract_ids`: the three patterns, with the
Python `set` iteration order modelled as first-insertion order. -/
def extract_ids (query : String) : List String :=
  let cs := query.data
  let tix := (scanTicketsB cs.length none cs).map (fun m => pyUpper ⟨m⟩)
  let invs := (scanInvB cs.length none cs).map (fun m => pyDropChar (pyUpper ⟨m⟩) '-')
  let nums := (scanLongNum cs.length none cs).map String.mk
  dedupFirst (tix ++ invs ++ nums)

/-- Rendered sample row of `intent_record_lookup`. -/
def recordLookupRowLines (df : Table) (r : Row) : String :=
  let tnum := if df.hasTicket then r.ticketNumber else ""
  let inv := if df.hasInvoice then r.invoiceNumber else ""
  let reason := truncEllipsis 90 87
    (pyStrip (pyNewlineToSpace (if df.hasReason then r.reason else "")))
  let parts : List String :=
    (if pyStrip tnum ≠ "" then ["Ticket **" ++ tnum ++ "**"] else [])
    ++ (if pyStrip inv ≠ "" then ["Invoice **" ++ inv ++ "**"] else [])
    ++ (match (if df.hasDate then r.date else none) with
        | some d => ["Date: " ++ fmtTimestamp (d * 86400)]
        | none => [])
    ++ (if df.hasStatus && pyStrip r.status ≠ "" then ["Status: " ++ r.status] else [])
  let header := if parts.isEmpty then "Record:" else pyJoin " | " parts
  if reason ≠ "" then "   • " ++ header ++ " — _" ++ reason ++ "_"
  else "   • " ++ header

/-- The row mask of `intent_record_lookup` for one extracted id: the OR of the
per-column masks collected in `masks` (flattened here: a mask is contributed
only when its column exists). -/
def ridMask (df : Table) (rid : String) (r : Row) : Bool :=
  let rid_clean := pyDropSub (pyDropSub rid "INV") "INV-"
  (df.hasTicket && (normRL r.ticketNumber == rid))
  || (df.hasInvoice
      && (normRL r.invoiceNumber == rid || normRL r.invoiceNumber == rid_clean))

/-- The per-id block of `intent_record_lookup`'s report (`if not masks:
continue` is the column-presence test of `ridMask`). -/
def recordLookupIdBlock (df : Table) (rid : String) : List String :=
  if ! df.hasTicket && ! df.hasInvoice then []
  else
    let found := df.rows.filter (ridMask df rid)
    if found.isEmpty then ["❌ **" ++ rid ++ "** — not found in this dataset."]
    else
      let total_amt : Option ℚ :=
        if df.hasTotal then some (found.filterMap Row.total).sum else none
      let sumLine : List String := match total_amt with
        | some v => ["   • Sum of `Credit Request Total`: " ++ format_money v]
        | none => []
      ["✅ **" ++ rid ++ "** — found **" ++ toString found.length ++ "** record(s)."]
      ++ sumLine ++ (found.take 3).map (recordLookupRowLines df) ++ [""]

/-- `skybar.intents.record_lookup.intent_record_lookup`. -/
def intent_record_lookup (query : String) (df : Table) (_today : Int) :
    Except String (Option String) :=
  let q_low := pyLower query
  let kw := ["logged", "in the system", "on record", "on file", "do we have", "exist"]
  if ! kw.any (pyContains q_low) then .ok none
  else if ! pyContains q_low "ticket" && ! pyContains q_low "invoice"
      && ! pyContains q_low "credit" then .ok none
  else if ! df.hasTicket && ! df.hasInvoice then
    .ok (some ("I can\x27t check whether a record is logged because I don\x27t see "
      ++ "`Ticket Number` or `Invoice Number` columns in the dataset."))
  else
    let ids := extract_ids query
    if ids.isEmpty then .ok none
    else
      let lines := ["🔍 **Record lookup – is this ticket / invoice logged?**", ""]
        ++ (ids.map (recordLookupIdBlock df)).flatten
      .ok (some (pyJoin "\n" lines))

/-- Rendered sample row of `intent_customer_tickets` (the raw
`Credit Request Total` cell through `format_money`; in this model an absent or
unparsable cell renders as `str(None)`). -/
def customerTicketsRowLine (df : Table) (r : Row) : String :=
  let d_str := match (if df.hasDate then r.date else none) with
    | some d => fmtDate d
    | none => "Unknown date"
  let amount_str := format_money_opt (if df.hasTotal then r.total else none)
  "- **" ++ d_str ++ "** — Customer **" ++ getCustomer df r ++ "**, Ticket **"
    ++ getTicket df r ++ "**, Status: *" ++ getStatus df r ++ "*, Credit: " ++ amount_str

/-- `skybar.intents.customer_tickets.intent_customer_tickets`.  Note the two
unguarded accesses once the subset is non-empty: `sort_values("Date")` and
`subset["Credit Request Total"]` raise when those columns are missing. -/
def intent_customer_tickets (query : String) (df : Table) (today : Int) :
    Except String (Option String) :=
  let q_low := pyLower query
  if ! pyContains q_low "customer" || ! pyContains q_low "ticket" then .ok none
  else
    match scanCustomerTok query.data with
    | none =>
      .ok (some ("I heard \x27customer\x27, but I couldn’t detect which one. "
        ++ "Try: `show all tickets for customer YAM`."))
    | some tok =>
      let cust_token := normalizeId ⟨tok⟩
      if ! df.hasCustomer then
        .ok (some "I can\x27t find a `Customer Number` column in the dataset.")
      else
        let cust := fun (r : Row) => pyStrip (pyUpper r.customerNumber)
        let cust_mask := fun (r : Row) =>
          pyStartsWith (cust r) cust_token || pyContains (cust r) cust_token
        let days : Option Int :=
          if pyContains q_low "last 15" then some 15
          else if pyContains q_low "last 30" then some 30
          else none
        let subset := match days with
          | some d =>
            if df.hasDate then
              df.rows.filter (fun r => cust_mask r
                && (match r.date with
                    | some x => decide (today - d ≤ x ∧ x ≤ today)
                    | none => false))
            else df.rows.filter cust_mask
          | none => df.rows.filter cust_mask
        if subset.isEmpty then
          match days with
          | some d =>
            .ok (some ("I don\x27t see any tickets for customers matching **\x27"
              ++ cust_token ++ "\x27** in the last " ++ toString d ++ " days."))
          | none =>
            .ok (some ("I don\x27t see any tickets in the database for customers matching "
              ++ "**\x27" ++ cust_token ++ "\x27**."))
        else if ! df.hasDate then .error "KeyError: \x27Date\x27"
        else if ! df.hasTotal then .error "KeyError: \x27Credit Request Total\x27"
        else
          let sorted := sortByLe dateDescLe subset
          let total_tickets := sorted.length
          let total_credits_str := format_money (sorted.filterMap Row.total).sum
          let distinct := dedupFirst (sorted.map (fun r => pyUpper r.customerNumber))
          let cust_display := pyJoin ", " (distinct.take 10)
            ++ (if 10 < distinct.length then
                  ", ... (+" ++ toString (distinct.length - 10) ++ " more)"
                else "")
          let header := "Here’s what I found for customers matching **\x27"
            ++ cust_token ++ "\x27**"
            ++ (match days with
                | some d => " in the last " ++ toString d ++ " days"
                | none => "") ++ ":"
          let lines := [header,
            "- Matching customer numbers: **" ++ cust_display ++ "**",
            "- Tickets: **" ++ toString total_tickets ++ "**",
            "- Sum of `Credit Request Total`: **" ++ total_credits_str ++ "**",
            "",
            "Sample of recent tickets (most recent first):"]
            ++ (sorted.take 15).map (customerTicketsRowLine df)
            ++ (if 15 < sorted.length then
                  ["...and **" ++ toString (sorted.length - 15) ++ "** more ticket(s)."]
                else [])
          .ok (some (pyJoin "\n" lines))

/-- `skybar.intents.credit_activity._ensure_update_timestamp`: this variant
always recomputes `Update Timestamp` from the `Status` text (a missing
`Status` column is broadcast to `""` first), ignoring any existing
`Update Timestamp` column. -/
def updateTSActivity (df : Table) (r : Row) : Option Int :=
  extractUpdateTS (if df.hasStatus then r.status else "")

/-- `skybar.intents.credit_activity._get_date_window` on the lowered query:
the resolved `(start?, end)` day-number window. -/
def get_date_window (q_low : String) (today : Int) : Option Int × Int :=
  let q_clean := ⟨q_low.data.map (fun c =>
    if c = '?' ∨ c = '!' ∨ c = ',' ∨ c = '.' then ' ' else c)⟩
  let fromStart : Option Int :=
    match scanFromToToday (String.data q_clean) with
    | some g => dateutilParseISO (pyStrip ⟨g⟩)
    | none => none
  let start : Option Int :=
    match fromStart with
    | some s => some s
    | none =>
      if pyContains q_clean "last 7" || pyContains q_clean "last seven"
          || pyContains q_clean "last 7 days" || pyContains q_clean "last week" then
        some (today - 7)
      else if pyContains q_clean "last 30" || pyContains q_clean "last thirty"
          || pyContains q_clean "last 30 days" || pyContains q_clean "last month" then
        some (today - 30)
      else if pyContains q_clean "this month" then some (firstOfMonth today)
      else none
  (start, today)

/-- Descending sort comparator on the derived update timestamps. -/
def utsDescLe (df : Table) (r1 r2 : Row) : Bool :=
  match updateTSActivity df r1, updateTSActivity df r2 with
  | some a, some b => b ≤ a
  | some _, none => true
  | none, some _ => false
  | none, none => true

/-- `skybar.intents.credit_activity.intent_credit_activity`.  Note the
unguarded `subset[["Ticket Number", ...]]` projection: it raises when the
`Ticket Number` column is missing and the subset is non-empty. -/
def intent_credit_activity (query : String) (df : Table) (today : Int) :
    Except String (Option String) :=
  let q_low := pyLower query
  if (! pyContains q_low "credit" && ! pyContains q_low "credits")
      || (! pyContains q_low "update" && ! pyContains q_low "updated") then .ok none
  else
    let w := get_date_window q_low today
    match w.1 with
    | none => .ok none
    | some start =>
      let finish := w.2
      let subset := df.rows.filter (fun r =>
        match updateTSActivity df r with
        | some ts => decide (start * 86400 ≤ ts ∧ ts ≤ finish * 86400)
        | none => false)
      if subset.isEmpty then
        .ok (some ("I don\x27t see any timestamped credit updates between **"
          ++ fmtDate start ++ "** and **" ++ fmtDate finish ++ "**."))
      else if ! df.hasTicket then .error "KeyError: \x27Ticket Number\x27"
      else
        let total_records := subset.length
        let lines := ["For this period (**" ++ fmtDate start ++ "** to **"
            ++ fmtDate finish ++ "**), I see:",
          "- **" ++ toString total_records
            ++ "** credit request record(s) with timestamped updates"]
          ++ ["- **" ++ toString (nunique (subset.map Row.ticketNumber))
              ++ "** unique ticket(s) updated"]
          ++ (if df.hasTotal then
                ["- Total `Credit Request Total`: **"
                  ++ format_money (subset.filterMap Row.total).sum ++ "**"]
              else [])
          ++ ["", "Most recent updates in that range:"]
        let sample := (sortByLe (utsDescLe df) subset).take 10
        let rowLines := sample.map (fun r =>
          let ts_str := match updateTSActivity df r with
            | some ts => fmtTimestamp ts
            | none => "Unknown time"
          "- **" ++ ts_str ++ "** — Ticket **" ++ r.ticketNumber ++ "** — "
            ++ (if df.hasStatus then r.status else ""))
        let tailLine := if sample.length < subset.length then
            ["...and **" ++ toString (subset.length - sample.length)
              ++ "** more update record(s)."]
          else []
        .ok (some (pyJoin "\n" (lines ++ rowLines ++ tailLine)))

/-- The non-sentinel `RTN_CR_No` mask of `intent_rtn_summary` (note:
`"NA"` is *not* in this handler's sentinel list). -/
def rtnValidMask (r : Row) : Bool :=
  let s := pyStrip r.rtn
  s ≠ "" && ! ["NAN", "NONE", "NULL"].contains (pyUpper s)

/-- Rendered sample row of `intent_rtn_summary`. -/
def rtnSummaryRowLine (df : Table) (r : Row) : String :=
  let d_str := match (if df.hasDate then r.date else none) with
    | some d => fmtDate d
    | none => "Unknown date"
  "- **" ++ d_str ++ "** — Customer **" ++ getCustomer df r ++ "**, Invoice **"
    ++ getInvoice df r ++ "**, Ticket **" ++ getTicket df r
    ++ "**, Credit Number (RTN_CR_No): **" ++ r.rtn ++ "**"

/-- `skybar.intents.credit_numbers.intent_rtn_summary`. -/
def intent_rtn_summary (query : String) (df : Table) (_today : Int) :
    Except String (Option String) :=
  let q_low := pyLower query
  if ! pyContains q_low "credit number" && ! pyContains q_low "rtn_cr_no"
      && ! (pyContains q_low "rtn" && pyContains q_low "credit") then .ok none
  else if ! df.hasRTN then
    .ok (some "I can’t find the `RTN_CR_No` column in the dataset.")
  else
    let rtn_df := df.rows.filter rtnValidMask
    if rtn_df.isEmpty then
      .ok (some "I don’t see any credits with a populated `RTN_CR_No` yet.")
    else
      let total_with_rtn := rtn_df.length
      let sorted := if df.hasDate then sortByLe dateDescLe rtn_df else rtn_df
      let lines := ["I currently see **" ++ toString total_with_rtn
          ++ "** credit request(s) with a non-empty **RTN_CR_No**.",
        "",
        "Here are some of the most recent ones:"]
        ++ (sorted.take 20).map (rtnSummaryRowLine df)
        ++ (if 20 < sorted.length then
              ["...and **" ++ toString (sorted.length - 20)
                ++ "** more record(s) with a credit number."]
            else [])
      .ok (some (pyJoin "\n" lines))

/-- `skybar.intents.priority_tickets._no_rtn_mask` per row: True = the ticket
still needs a credit number.  This is the one classifier that OR-composes the
`RTN_CR_No` sentinel test with credit-number evidence in the `Status` text. -/
def no_rtn_mask (df : Table) (r : Row) : Bool :=
  let rtn_s := if df.hasRTN then pyStrip r.rtn else ""
  let has_rtn_col := ! ["", "NAN", "NONE", "NULL", "NA"].contains (pyUpper rtn_s)
  let su := pyUpper (if df.hasStatus then r.status else "")
  let status_has_credit := pyContains su "CREDIT NUMBER" || pyContains su "CREDIT NUMBERS"
    || pyContains su "CREDIT REQUEST NO.:" || pyContains su "CREDIT REQUEST NO"
    || pyContains su "RTNCM"
  ! (has_rtn_col || status_has_credit)

/-- Rendered row of `intent_priority_tickets`. -/
def priorityRowLine (df : Table) (today : Int) (r : Row) : String :=
  let d_str := match r.date with
    | some d => fmtDate d
    | none => "Unknown date"
  let days_open := match r.date with
    | some d => toString (today - d)
    | none => "?"
  "- **" ++ d_str ++ "** — Ticket **" ++ getTicket df r ++ "** (Customer **"
    ++ getCustomer df r ++ "**) — *" ++ getStatus df r ++ "* — **"
    ++ days_open ++ " days open**"

/-- `skybar.intents.priority_tickets.intent_priority_tickets`. -/
def intent_priority_tickets (query : String) (df : Table) (today : Int) :
    Except String (Option String) :=
  let q_low := pyLower query
  if ! pyContains q_low "priority" || ! pyContains q_low "ticket" then .ok none
  else if ! df.hasDate then
    .ok (some ("I can\x27t compute priority tickets because there is no `Date` column "
      ++ "in the dataset."))
  else
    let dv := df.rows.filter (fun r => r.date.isSome)
    if dv.isEmpty then
      .ok (some ("I don\x27t see any tickets with a valid `Date`, so I can\x27t compute "
        ++ "priorities yet."))
    else
      let dv2 := dv.filter (no_rtn_mask df)
      if dv2.isEmpty then
        .ok (some ("Nice! Every ticket with a valid date already has a credit number. "
          ++ "No pending priority tickets."))
      else
        let cutoff := today - 15
        let priority_df := dv2.filter (fun r =>
          match r.date with | some d => decide (d ≤ cutoff) | none => false)
        if priority_df.isEmpty then
          .ok (some ("I don\x27t see any tickets older than 15 days without a credit "
            ++ "number. Oldest open tickets are still within the 15-day window."))
        else
          let sorted := sortByLe dateAscLe priority_df
          let total_priority := sorted.length
          let sample := sorted.take 20
          let lines := ["Here are **priority tickets** without a credit number (RTN_CR_No), "
              ++ "older than **15 days**:",
            "- Total priority tickets: **" ++ toString total_priority ++ "**",
            "",
            "Oldest tickets first (top 20):"]
            ++ sample.map (priorityRowLine df today)
            ++ (if sample.length < total_priority then
                  ["...and **" ++ toString (total_priority - sample.length)
                    ++ "** more priority ticket(s)."]
                else [])
          .ok (some (pyJoin "\n" lines))

/-- `skybar.intents.credit_aging._has_rtn` per cell: True = the row HAS a
credit number.  Note: *only* the `RTN_CR_No` sentinel test — unlike
`no_rtn_mask` (priority_tickets) there is no `Status`-text clause. -/
def has_rtn_aging (cell : String) : Bool :=
  let s := pyStrip cell
  s ≠ "" && ! ["NAN", "NONE", "NULL", "NA"].contains (pyUpper s)

/-- The fixed aging bucket labels of `intent_credit_aging`. -/
def agingLabels : List String := ["0–7", "8–15", "16–30", "31–60", "61–90", "90+"]

/-- `pd.cut(days, bins=[0,7,15,30,60,90,10**9], right=True,
include_lowest=True)` of `intent_credit_aging`: right-inclusive,
lowest-inclusive binning; out-of-range values get no bucket (NaN). -/
def agingBucketOf (d : Int) : Option String :=
  if d < 0 ∨ 10 ^ 9 < d then none
  else if d ≤ 7 then some "0–7"
  else if d ≤ 15 then some "8–15"
  else if d ≤ 30 then some "16–30"
  else if d ≤ 60 then some "31–60"
  else if d ≤ 90 then some "61–90"
  else some "90+"

/-- The open (no-credit-number) dated rows of `intent_credit_aging` with
non-negative `Days Open`: `dv[open_mask & (dv["Days Open"] >= 0)]`. -/
def agingOpenRows (df : Table) (today : Int) : List Row :=
  (df.rows.filter (fun r => r.date.isSome)).filter (fun r =>
    (if df.hasRTN then ! has_rtn_aging r.rtn else true)
    && (match r.date with | some d => decide (0 ≤ today - d) | none => false))

/-- The `Days Open` values of the open rows (every open row has a date, the
NaT rows having been dropped before the mask). -/
def agingDays (df : Table) (today : Int) : List Int :=
  (agingOpenRows df today).map (fun r => today - r.date.getD 0)

/-- `value_counts().reindex(labels, fill_value=0)` of the aging buckets. -/
def agingBucketCounts (df : Table) (today : Int) : List (String × Nat) :=
  agingLabels.map (fun lab =>
    (lab, ((agingDays df today).filter (fun d => agingBucketOf d == some lab)).length))

/-- Descending comparator on `Days Open` (`sort_values("Days Open",
ascending=False)`; all dates present in the sorted subset). -/
def daysOpenDescLe (today : Int) (r1 r2 : Row) : Bool :=
  match r1.date, r2.date with
  | some a, some b => today - b ≤ today - a
  | some _, none => true
  | none, some _ => false
  | none, none => true

/-- Rendered critical-row line of `intent_credit_aging`. -/
def agingCriticalRowLine (df : Table) (today : Int) (r : Row) : String :=
  let d_str := match r.date with
    | some d => fmtDate d
    | none => "Unknown"
  let days_open := match r.date with
    | some d => toString (today - d)
    | none => "0"
  let s0 := if df.hasStatus then r.status else ""
  let s1 := if s0 ≠ "" then s0 else (if df.hasReason then r.reason else "")
  let reason := truncEllipsis 160 157 (pyStrip (pyNewlineToSpace s1))
  "- **" ++ d_str ++ "** — Ticket **" ++ getTicket df r ++ "** (Customer **"
    ++ getCustomer df r ++ "**) — *" ++ reason ++ "* — **" ++ days_open
    ++ " days open**"

/-- `skybar.intents.credit_aging.intent_credit_aging`. -/
def intent_credit_aging (query : String) (df : Table) (today : Int) :
    Except String (Option String) :=
  let q_low := pyLower query
  if ! pyContains q_low "aging" && ! pyContains q_low "ageing"
      && ! scanOverDayB none q_low.data && ! scanOlderThanDay q_low.data then .ok none
  else if ! pyContains q_low "credit" && ! pyContains q_low "ticket" then .ok none
  else
    let highlight_threshold : Int := match scanAgingThreshold q_low.data with
      | some dg => (digitsToNat dg : Int)
      | none => 60
    if ! df.hasDate then
      .ok (some "I can\x27t compute aging without a `Date` column in the dataset.")
    else
      let open_df := agingOpenRows df today
      if open_df.isEmpty then
        .ok (some ("I don\x27t see any open credits without a `RTN_CR_No` to build "
          ++ "an aging summary."))
      else
        let total_open := open_df.length
        let bucketLines := (agingBucketCounts df today).map (fun p =>
          "- **" ++ p.1 ++ " days**: " ++ toString p.2 ++ " ticket(s)")
        let moneyLines := if df.hasTotal then
            ["- Sum of `Credit Request Total`: **"
              ++ format_money (open_df.filterMap Row.total).sum ++ "**"]
          else []
        let inRange := open_df.filter (fun r =>
          match r.date with
          | some d => decide (highlight_threshold ≤ today - d)
          | none => false)
        let critical := (sortByLe (daysOpenDescLe today) inRange).take 20
        let criticalLines := if critical.isEmpty then []
          else ["",
            "Oldest tickets (≥ **" ++ toString highlight_threshold
              ++ "** days open, up to 20 shown):"]
            ++ critical.map (agingCriticalRowLine df today)
            ++ (if critical.length < inRange.length then
                  ["...and **" ++ toString (inRange.length - critical.length)
                    ++ "** more ticket(s) in that range."]
                else [])
        let lines := ["Here’s the **credit aging summary** for open tickets *without* "
            ++ "a credit number (RTN_CR_No):",
          "",
          "Buckets (days open):"]
          ++ bucketLines
          ++ ["\nTotal open tickets without RTN_CR_No: **" ++ toString total_open ++ "**"]
          ++ moneyLines
          ++ criticalLines
        .ok (some (pyJoin "\n" lines))

/-- `skybar.intents.stalled_tickets._has_rtn` per cell (textually identical to
the credit_aging copy; kept separate as in the source). -/
def has_rtn_stalled (cell : String) : Bool :=
  let s := pyStrip cell
  s ≠ "" && ! ["NAN", "NONE", "NULL", "NA"].contains (pyUpper s)

/-- `skybar.intents.stalled_tickets._ensure_update_timestamp` per row: an
explicit `Update Timestamp` column wins; otherwise the timestamp is extracted
from `Status` (all-NaT when `Status` is also missing).  The ensured frame
always has the column, so the handler's `"Update Timestamp" not in dv.columns`
guard is dead code. -/
def updateTSStalled (df : Table) (r : Row) : Option Int :=
  if df.hasUpdateTS then r.updateTS
  else if ! df.hasStatus then none
  else extractUpdateTS r.status

/-- `Days Since Update` per row: `(today - dv["Update Timestamp"]).dt.days`
(floor division of the timedelta). -/
def daysSinceUpdate (df : Table) (today : Int) (r : Row) : Option Int :=
  (updateTSStalled df r).map (fun ts => Int.fdiv (today * 86400 - ts) 86400)

/-- `bucketize` of `intent_stalled_tickets`: the first bucket follows the
user threshold `n`, the later boundaries stay hardcoded at 15/30. -/
def stalled_bucketize (n x : Int) : String :=
  if x < n then "<" ++ toString n
  else if x ≤ n + 7 then toString n ++ "–" ++ toString (n + 7)
  else if x ≤ 30 then "15–30"
  else "30+"

/-- `re.search(r"(\d+)\s+day", q_low)` with default 7: the stalled-days
threshold of `intent_stalled_tickets`. -/
def stalledDaysOf (query : String) : Int :=
  match scanNumDay (pyLower query).data with
  | some dg => (digitsToNat dg : Int)
  | none => 7

/-- The stalled selection of `intent_stalled_tickets`:
rows with a derived update timestamp, `Days Since Update ≥ n`, and no credit
number. -/
def stalledSelect (df : Table) (today n : Int) : List Row :=
  df.rows.filter (fun r =>
    (match daysSinceUpdate df today r with
     | some d => decide (n ≤ d)
     | none => false)
    && (if df.hasRTN then ! has_rtn_stalled r.rtn else true))

/-- Descending `(Days Since Update, Days Open)` comparator, NaN last. -/
def stalledSortLe (df : Table) (today : Int) (r1 r2 : Row) : Bool :=
  match daysSinceUpdate df today r1, daysSinceUpdate df today r2 with
  | some a, some b =>
    if a = b then
      (match r1.date, r2.date with
       | some x, some y => today - y ≤ today - x
       | some _, none => true
       | none, some _ => false
       | none, none => true)
    else b ≤ a
  | some _, none => true
  | none, some _ => false
  | none, none => true

/-- Rendered row of `intent_stalled_tickets`. -/
def stalledRowLine (df : Table) (today : Int) (r : Row) : String :=
  let last_ts_str := match updateTSStalled df r with
    | some ts => fmtTimestamp ts
    | none => "Unknown time"
  let dsu := match daysSinceUpdate df today r with
    | some d => toString d
    | none => "0"
  let days_open_str := match (if df.hasDate then r.date else none) with
    | some d => ", **" ++ toString (today - d) ++ " days open**"
    | none => ""
  let status_snip := truncEllipsis 160 157
    (pyStrip (pyNewlineToSpace (if df.hasStatus then r.status else "")))
  "- **" ++ last_ts_str ++ "** — Ticket **" ++ getTicket df r ++ "** (Customer **"
    ++ getCustomer df r ++ "**) — *" ++ status_snip ++ "* — **" ++ dsu
    ++ " days since last update**" ++ days_open_str

/-- `skybar.intents.stalled_tickets.intent_stalled_tickets`. -/
def intent_stalled_tickets (query : String) (df : Table) (today : Int) :
    Except String (Option String) :=
  let q_low := pyLower query
  let kws := ["stalled", "no recent update", "no updates", "not updated",
    "haven\x27t been updated", "haven’t been updated", "no movement"]
  if ! kws.any (pyContains q_low) then .ok none
  else if ! pyContains q_low "ticket" && ! pyContains q_low "credit" then .ok none
  else
    let stalled_days := stalledDaysOf query
    let stalled_df := stalledSelect df today stalled_days
    if stalled_df.isEmpty then
      .ok (some ("I don\x27t see any open tickets without RTN_CR_No that have been "
        ++ "stalled for **" ++ toString stalled_days ++ "+** days."))
    else
      let total_stalled := stalled_df.length
      let buckets := stalled_df.map (fun r =>
        stalled_bucketize stalled_days ((daysSinceUpdate df today r).getD 0))
      let lab1 := toString stalled_days ++ "–" ++ toString (stalled_days + 7)
      let count := fun (lab : String) => (buckets.filter (fun b => b == lab)).length
      let sample := (sortByLe (stalledSortLe df today) stalled_df).take 20
      let lines := ["Here are **stalled tickets** (no credit number, no updates for **"
          ++ toString stalled_days ++ "+ days**):",
        "- Total stalled tickets: **" ++ toString total_stalled ++ "**",
        "",
        "Stall buckets (days since last update):",
        "- **" ++ lab1 ++ " days**: " ++ toString (count lab1) ++ " ticket(s)",
        "- **15–30 days**: " ++ toString (count "15–30") ++ " ticket(s)",
        "- **30+ days**: " ++ toString (count "30+") ++ " ticket(s)",
        "",
        "Most stalled tickets first (top 20):"]
        ++ sample.map (stalledRowLine df today)
        ++ (if sample.length < stalled_df.length then
              ["...and **" ++ toString (stalled_df.length - sample.length)
                ++ "** more stalled ticket(s)."]
            else [])
      .ok (some (pyJoin "\n" lines))

/-- `df.groupby(key)` key order: distinct keys, sorted ascending. -/
def sortedGroupKeys (key : Row → String) (rows : List Row) : List String :=
  sortByLe (fun a b => decide (a ≤ b)) (dedupFirst (rows.map key))

/-- `groupby(key)[val].sum()` with NaN-skipping sum, as `(key, sum)` pairs in
ascending key order. -/
def groupSumOpt (key : Row → String) (val : Row → Option ℚ) (rows : List Row) :
    List (String × ℚ) :=
  (sortedGroupKeys key rows).map (fun k =>
    (k, ((rows.filter (fun r => key r == k)).filterMap val).sum))

/-- `.sort_values(ascending=False).head(n)` on a summed series. -/
def topNBySum (n : Nat) (l : List (String × ℚ)) : List (String × ℚ) :=
  (sortByLe (fun p q => decide (q.2 ≤ p.2)) l).take n

/-- Maximum of a list of integers (used on provably non-empty date lists). -/
def maxIntList : List Int → Int
  | [] => 0
  | x :: xs => xs.foldl max x

/-- The open-row mask of `intent_overall_summary`: `RTN_CR_No` upper-stripped
empty or in `["NAN", "NONE", "NULL"]` — note `"NA"` is missing from this
sentinel list, and there is no `Status`-text clause; all-False when the column
is missing. -/
def no_rtn_overall (df : Table) (r : Row) : Bool :=
  if df.hasRTN then
    let rtn_raw := pyUpper (pyStrip r.rtn)
    rtn_raw == "" || ["NAN", "NONE", "NULL"].contains rtn_raw
  else false

/-- `skybar.intents.overall_summary.intent_overall_summary`.  (After its
`Date`-handling block the frame always carries a `Date` column — missing
dates become all-NaT — so the later `"Date" in dv.columns` test is always
true and the `iloc[0:0]` arm is dead.) -/
def intent_overall_summary (query : String) (df : Table) (today : Int) :
    Except String (Option String) :=
  let q_low := pyLower query
  let keywords_any := ["summary", "overview", "picture", "status",
    "how are credits", "credit overview"]
  if ! keywords_any.any (pyContains q_low) then .ok none
  else
    let this_month_start := firstOfMonth today
    let total_records := df.rows.length
    let numCell := fun (r : Row) => if df.hasTotal then r.total else none
    let total_amount_str := if df.hasTotal then
        format_money (df.rows.filterMap Row.total).sum
      else "N/A"
    let open_no_rtn := df.rows.filter (no_rtn_overall df)
    let open_count := open_no_rtn.length
    let open_amount_str := format_money (open_no_rtn.filterMap numCell).sum
    let month_df := df.rows.filter (fun r =>
      match dateOf df r with
      | some d => decide (this_month_start ≤ d ∧ d ≤ today)
      | none => false)
    let month_count := month_df.length
    let month_amount_str := format_money (month_df.filterMap numCell).sum
    let top_lines : List String :=
      if 0 < month_count && df.hasCustomer then
        (topNBySum 5 (groupSumOpt Row.customerNumber numCell month_df)).map (fun p =>
          "- **" ++ p.1 ++ "** — " ++ format_money p.2 ++ " this month")
      else []
    let recentLines : List String :=
      if 0 < month_count then
        ["", "🕒 **Most recent credits this month (up to 5):**"]
        ++ ((sortByLe dateDescLe month_df).take 5).map (fun r =>
          let d_str := match dateOf df r with
            | some d => fmtDate d
            | none => "Unknown date"
          let amt_str := match numCell r with
            | some v => format_money v
            | none => "N/A"
          "- **" ++ d_str ++ "** — Ticket **" ++ getTicket df r ++ "**, Customer **"
            ++ getCustomer df r ++ "**, Amount: " ++ amt_str)
      else []
    let lines := ["📊 **Overall Credit Overview**",
      "",
      "- Total records in dataset: **" ++ toString total_records ++ "**",
      "- Total `Credit Request Total`: **" ++ total_amount_str ++ "**",
      "",
      "🧾 **Open tickets without a credit number (RTN_CR_No)**",
      "- Count: **" ++ toString open_count ++ "**",
      "- Sum of `Credit Request Total`: **" ++ open_amount_str ++ "**",
      "",
      "📅 **This month (" ++ fmtDate this_month_start ++ " → " ++ fmtDate today ++ ")**",
      "- Credit records: **" ++ toString month_count ++ "**",
      "- Sum of `Credit Request Total`: **" ++ month_amount_str ++ "**"]
      ++ (if ! top_lines.isEmpty then
            ["", "🏢 **Top customers by credit this month**"] ++ top_lines
          else [])
      ++ recentLines
    .ok (some (pyJoin "\n" lines))

/-- `groupby` aggregation of top_accounts/top_items: per ascending key, the
unique-ticket count (row count when `Ticket Number` is missing) and the dollar
sum. -/
def groupAgg (df : Table) (key : Row → String) (rows : List Row) :
    List (String × Nat × ℚ) :=
  (sortedGroupKeys key rows).map (fun k =>
    let g := rows.filter (fun r => key r == k)
    (k, (if df.hasTicket then nunique (g.map Row.ticketNumber) else g.length),
      (g.filterMap Row.total).sum))

/-- `sort_values(["credit_total", "ticket_count"], ascending=[False, False])`. -/
def groupAggSortLe (p q : String × Nat × ℚ) : Bool :=
  if p.2.2 = q.2.2 then q.2.1 ≤ p.2.1 else decide (q.2.2 ≤ p.2.2)

/-- The rows kept for ranking by top_accounts/top_items: parseable non-zero
dollars, and — for "issued"-style queries when `RTN_CR_No` exists — a
non-empty stripped `RTN_CR_No` (no sentinel filtering here). -/
def rankableRows (df : Table) (q_low : String) : List Row :=
  let base := df.rows.filter (fun r =>
    match r.total with
    | some v => decide (v ≠ 0)
    | none => false)
  if ["issued", "with credit number", "have credit numbers"].any (pyContains q_low) then
    (if df.hasRTN then base.filter (fun r => pyStrip r.rtn ≠ "") else base)
  else base

/-- `skybar.intents.top_accounts.intent_top_accounts`.  The customer-column
fallback list (`Customer Number`, `Customer`, `Customer Code`, ...) collapses
to the modelled canonical `Customer Number` column. -/
def intent_top_accounts (query : String) (df : Table) (_today : Int) :
    Except String (Option String) :=
  let q := pyLower query
  if ! ["account", "accounts", "customer", "customers"].any (pyContains q) then .ok none
  else if ! pyContains q "credit" && ! pyContains q "credits" then .ok none
  else if ! ["most", "top", "highest", "biggest"].any (pyContains q) then .ok none
  else if ! df.hasCustomer then
    .ok (some ("I couldn\x27t identify a customer/account column "
      ++ "(looked for \x27Customer\x27, \x27Customer Number\x27, etc.), "
      ++ "so I can\x27t rank accounts by credits."))
  else if ! df.hasTotal then
    .ok (some ("I don\x27t see a `Credit Request Total` column, so I can\x27t compute "
      ++ "which accounts have the most credits."))
  else
    let dv := rankableRows df q
    if dv.isEmpty then
      .ok (some "I don\x27t see any credit records I can use to rank accounts.")
    else
      let grouped := sortByLe groupAggSortLe (groupAgg df Row.customerNumber dv)
      let top_n := grouped.take 10
      let lines := ["Here are the **accounts/customers with the most credits** "
          ++ "(ranked by total `Credit Request Total`):",
        "- Total accounts in ranking: **" ++ toString grouped.length ++ "**",
        "",
        "Top accounts (up to 10):"]
        ++ top_n.map (fun p =>
          let label := if pyStrip p.1 ≠ "" then p.1 else "Unknown"
          "- **" ++ label ++ "** — **" ++ toString p.2.1 ++ "** ticket(s), "
            ++ "total credits **" ++ format_money p.2.2 ++ "**")
        ++ (if top_n.length < grouped.length then
              ["...and **" ++ toString (grouped.length - top_n.length)
                ++ "** more account(s) below."]
            else [])
      .ok (some (pyJoin "\n" lines))

/-- `skybar.intents.top_items.intent_top_items`.  The item-column fallback
list collapses to the canonical `Item Number`; the mojibake `â€”` in its row
line is reproduced from the source file. -/
def intent_top_items (query : String) (df : Table) (_today : Int) :
    Except String (Option String) :=
  let q := pyLower query
  if ! ["item", "items", "sku", "product", "products"].any (pyContains q) then .ok none
  else if ! pyContains q "credit" && ! pyContains q "credits" then .ok none
  else if ! ["most", "top", "highest", "biggest"].any (pyContains q) then .ok none
  else if ! df.hasItem then
    .ok (some ("I couldn\x27t identify an item column "
      ++ "(looked for \x27Item Number\x27, \x27Item\x27, \x27Item ID\x27, etc.), "
      ++ "so I can\x27t rank items by credits."))
  else if ! df.hasTotal then
    .ok (some ("I don\x27t see a `Credit Request Total` column, so I can\x27t compute "
      ++ "which items have the most credits."))
  else
    let dv := rankableRows df q
    if dv.isEmpty then
      .ok (some "I don\x27t see any credit records I can use to rank items.")
    else
      let grouped := sortByLe groupAggSortLe (groupAgg df Row.itemNumber dv)
      let top_n := grouped.take 10
      let lines := ["Here are the **items with the most credits** "
          ++ "(ranked by total `Credit Request Total`):",
        "- Total items in ranking: **" ++ toString grouped.length ++ "**",
        "",
        "Top items (up to 10):"]
        ++ top_n.map (fun p =>
          let label := if pyStrip p.1 ≠ "" then p.1 else "Unknown"
          "- **" ++ label ++ "** â€” **" ++ toString p.2.1 ++ "** ticket(s), "
            ++ "total credits **" ++ format_money p.2.2 ++ "**")
        ++ (if top_n.length < grouped.length then
              ["...and **" ++ toString (grouped.length - top_n.length)
                ++ "** more item(s) below."]
            else [])
      .ok (some (pyJoin "\n" lines))

/-- The coerced dollar amount used by credit_trends / credit_anomalies:
`pd.to_numeric(errors="coerce").fillna(0.0)`, and `0.0` throughout when the
column is missing (credit_trends sets the whole column to `0.0` then). -/
def amtFilled (df : Table) (r : Row) : ℚ :=
  if df.hasTotal then r.total.getD 0 else 0

/-- `skybar.intents.credit_trends.intent_credit_trends`. -/
def intent_credit_trends (query : String) (df : Table) (_today : Int) :
    Except String (Option String) :=
  let q_low := pyLower query
  if ! pyContains q_low "trend" && ! pyContains q_low "pattern"
      && ! pyContains q_low "insight" && ! pyContains q_low "what\x27s happening"
      && ! pyContains q_low "whats happening" then .ok none
  else if ! pyContains q_low "credit" && ! pyContains q_low "ticket" then .ok none
  else if ! df.hasDate then
    .ok (some "I can\x27t analyze credit trends because the `Date` column is missing.")
  else
    let dv := df.rows.filter (fun r => r.date.isSome)
    if dv.isEmpty then
      .ok (some "I don\x27t have enough dated records to analyze trends.")
    else
      let latest := maxIntList (dv.filterMap Row.date)
      let cutoff_30 := latest - 30
      let cutoff_prev := cutoff_30 - 30
      let last_30 := dv.filter (fun r =>
        match r.date with
        | some d => decide (cutoff_30 ≤ d ∧ d ≤ latest)
        | none => false)
      let prev_30 := dv.filter (fun r =>
        match r.date with
        | some d => decide (cutoff_prev ≤ d ∧ d ≤ cutoff_30 - 1)
        | none => false)
      if last_30.isEmpty || prev_30.isEmpty then
        .ok (some ("I don\x27t have enough data in the last 60 days to compare "
          ++ "the last 30 days vs the previous 30."))
      else
        let n_last := last_30.length
        let n_prev := prev_30.length
        let diff_n : Int := (n_last : Int) - (n_prev : Int)
        let pct_n : ℚ := ((diff_n : ℚ) / (max (n_prev : ℚ) 1)) * 100
        let amt_last := (last_30.map (amtFilled df)).sum
        let amt_prev := (prev_30.map (amtFilled df)).sum
        let diff_amt := amt_last - amt_prev
        let pct_amt := (diff_amt / (max amt_prev 1)) * 100
        let groupBlock := fun (flag : Bool) (key : Row → String) (header item : String) =>
          if flag then
            [header]
            ++ (topNBySum 5 (groupSumOpt key (fun r => some (amtFilled df r)) last_30)).map
              (fun p => "- " ++ item ++ p.1 ++ ": " ++ format_money p.2 ++ " in credits")
            ++ [""]
          else ([] : List String)
        let lines := ["📊 **Credit Trends – Last 30 vs Previous 30 Days**",
          "- Previous 30 days: **" ++ fmtDate cutoff_prev ++ " → "
            ++ fmtDate (cutoff_30 - 1) ++ "**",
          "- Last 30 days: **" ++ fmtDate cutoff_30 ++ " → " ++ fmtDate latest ++ "**",
          "",
          "📈 **Volume:** " ++ toString n_last ++ " rows vs " ++ toString n_prev
            ++ " rows (Δ " ++ fmtSignedInt diff_n ++ ", " ++ fmtSigned1 pct_n
            ++ "% change).",
          "💲 **Total credits:** " ++ format_money amt_last ++ " vs "
            ++ format_money amt_prev ++ " (Δ " ++ format_money diff_amt ++ ", "
            ++ fmtSigned1 pct_amt ++ "% change).",
          ""]
          ++ groupBlock df.hasCustomer Row.customerNumber
            "🏷️ **Top customers in the last 30 days:**" ""
          ++ groupBlock df.hasItem Row.itemNumber
            "📦 **Top items in the last 30 days:**" "Item "
          ++ groupBlock df.hasRep Row.salesRep
            "🧑‍💼 **Top sales reps in the last 30 days:**" ""
          ++ ["📝 **Summary:** This view is meant as a conversation starter for "
            ++ "leadership – volume, dollars, and who/what (customers, items, and "
            ++ "sales reps) is driving the most credits."]
        .ok (some (pyJoin "\n" lines))

/-- Mean of a list of rationals (float mean modelled exactly over `ℚ`). -/
def listMean (l : List ℚ) : ℚ := l.sum / (l.length : ℚ)

/-- Sample variance with `ddof = 1` (the pandas `Series.std()` default is the
square root of this): `none` models the NaN result on fewer than two values. -/
def sampleVar (l : List ℚ) : Option ℚ :=
  if l.length ≤ 1 then none
  else some ((l.map (fun x => (x - listMean l) ^ 2)).sum / ((l.length : ℚ) - 1))

/-- The handler's `recent[...].std() == 0` guard: `sqrt v = 0` iff `v = 0`,
and `NaN == 0` is False, so the test holds exactly when the sample variance is
zero. -/
def stdIsZero (l : List ℚ) : Bool := sampleVar l == some 0

/-- The `z_score.abs() >= 3` test of `intent_credit_anomalies`, in terms of
the sample variance: the source computes `z = (x - mu) / sigma` with
`sigma = sqrt v > 0` (the zero-variance guard has already returned) and tests
`3 ≤ |z|`, which over `ℚ` is exactly `9 * v ≤ (x - mu)^2`; with one single
value `sigma` is NaN, every comparison with the NaN z-score is False. -/
def zAbsGe3 (v? : Option ℚ) (mu x : ℚ) : Bool :=
  match v? with
  | none => false
  | some v => decide (9 * v ≤ (x - mu) ^ 2)

/-- The anomaly row filter: `(amount.abs() >= 500.0) & (z.abs() >= 3.0)`. -/
def anomalyRowFlag (v? : Option ℚ) (mu x : ℚ) : Bool :=
  decide (500 ≤ |x|) && zAbsGe3 v? mu x

/-- The flagged amounts among a 90-day window's coerced amounts. -/
def anomalyFilter (window : List ℚ) : List ℚ :=
  window.filter (anomalyRowFlag (sampleVar window) (listMean window))

/-- The trailing-90-day rows of `intent_credit_anomalies` (dated rows with
`Date` between `max - 90` and `max`). -/
def anomalyRecentRows (df : Table) : List Row :=
  let dv := df.rows.filter (fun r => r.date.isSome)
  let latest := maxIntList (dv.filterMap Row.date)
  dv.filter (fun r =>
    match r.date with
    | some d => decide (latest - 90 ≤ d ∧ d ≤ latest)
    | none => false)

/-- Signed rendering of a z-score: sign times the (approximated) square root
of `z^2 = (x - mu)^2 / v`; rendering only, see `ratSqrtApprox`. -/
def zRendered (v mu x : ℚ) : String :=
  let a := ratSqrtApprox ((x - mu) ^ 2 / v)
  fmtSigned2 (if x < mu then -a else a)

/-- Rendered extreme-row line of `intent_credit_anomalies`. -/
def anomalyRowLine (df : Table) (v mu : ℚ) (r : Row) : String :=
  let d_str := match r.date with
    | some d => fmtDate d
    | none => "Unknown"
  "- **" ++ d_str ++ "** — Ticket **" ++ getTicket df r ++ "** | Cust **"
    ++ getCustomer df r ++ "** | Item **" ++ getItem df r ++ "** | Rep **"
    ++ (if df.hasRep then r.salesRep else "N/A") ++ "** — Amount: "
    ++ format_money (amtFilled df r) ++ " (z = " ++ zRendered v mu (amtFilled df r) ++ ")"

/-- Descending `abs_z` comparator: with the fixed positive variance this is
exactly descending `(x - mu)^2`. -/
def absZDescLe (df : Table) (mu : ℚ) (r1 r2 : Row) : Bool :=
  decide ((amtFilled df r2 - mu) ^ 2 ≤ (amtFilled df r1 - mu) ^ 2)

/-- `skybar.intents.credit_anomalies.intent_credit_anomalies`. -/
def intent_credit_anomalies (query : String) (df : Table) (_today : Int) :
    Except String (Option String) :=
  let q_low := pyLower query
  if ! pyContains q_low "anomal" && ! pyContains q_low "unusual"
      && ! pyContains q_low "suspicious" && ! pyContains q_low "outlier"
      && ! pyContains q_low "weird" then .ok none
  else if ! pyContains q_low "credit" && ! pyContains q_low "ticket" then .ok none
  else if ! df.hasDate || ! df.hasTotal then
    .ok (some ("I can\x27t run anomaly detection because I need both `Date` and "
      ++ "`Credit Request Total` columns."))
  else
    let dv := df.rows.filter (fun r => r.date.isSome)
    if dv.isEmpty then
      .ok (some "I don\x27t have any dated records to run anomaly detection.")
    else
      let latest := maxIntList (dv.filterMap Row.date)
      let cutoff := latest - 90
      let recent := anomalyRecentRows df
      if recent.isEmpty then
        .ok (some "There are no credit records in the last 90 days to analyze.")
      else
        let window := recent.map (amtFilled df)
        if stdIsZero window then
          .ok (some "All recent credits are roughly the same size – no clear anomalies.")
        else
          let mu := listMean window
          let v? := sampleVar window
          let anomalies := recent.filter (fun r => anomalyRowFlag v? mu (amtFilled df r))
          if anomalies.isEmpty then
            .ok (some ("I don\x27t see any large, statistically unusual credits in the "
              ++ "last 90 days (amount ≥ " ++ format_money 500 ++ ", |z| ≥ 3.0)."))
          else
            let total_anom := anomalies.length
            let total_anom_amt := (anomalies.map (amtFilled df)).sum
            let v := v?.getD 0
            let groupBlock := fun (flag : Bool) (key : Row → String)
                (header item : String) =>
              if flag then
                [header]
                ++ (topNBySum 5 (groupSumOpt key (fun r => some (amtFilled df r))
                      anomalies)).map
                  (fun p => "- " ++ item ++ p.1 ++ ": " ++ format_money p.2
                    ++ " in anomalies")
                ++ [""]
              else ([] : List String)
            let top_rows := (sortByLe (absZDescLe df mu) anomalies).take 15
            let lines := ["🚨 **Credit Anomaly Scan – Last 90 Days**",
              "- Window analyzed: **" ++ fmtDate cutoff ++ " → " ++ fmtDate latest ++ "**",
              "- Anomalous credits found: **" ++ toString total_anom ++ "** "
                ++ "totalling **" ++ format_money total_anom_amt ++ "**",
              "- Rule: amount ≥ " ++ format_money 500 ++ ", |z-score| ≥ 3.0",
              ""]
              ++ groupBlock df.hasCustomer Row.customerNumber
                "👥 **Top customers with anomalous credits:**" ""
              ++ groupBlock df.hasItem Row.itemNumber
                "📦 **Top items with anomalous credits:**" "Item "
              ++ groupBlock df.hasRep Row.salesRep
                "🧑‍💼 **Top sales reps with anomalous credits:**" ""
              ++ ["🔍 **Most extreme anomalous credits (top 15 by |z-score|):**"]
              ++ top_rows.map (anomalyRowLine df v mu)
              ++ ["\n📝 **Use case:** This view is perfect for weekly risk reviews – "
                ++ "it surfaces a short list of unusually large credits by customer, "
                ++ "item, and rep."]
            .ok (some (pyJoin "\n" lines))

/-! ## The intent router (`skybar/intent_router.py`) -/

/-- Injection of a handler's annotated `str | None` result into
`IntentReturn` (no handler constructs the `(text, DataFrame)` variant). -/
def toIntentReturn : Option String → IntentReturn
  | some s => .text s
  | none => .absent

/-- The fallback help message of `skybar_answer` (lines 66–83). -/
def helpText : String :=
  "MiniTwin here 🤖 I didn\x27t fully understand that request.\n\n"
  ++ "Right now I can help you with:\n"
  ++ "1. Ticket status — e.g. `MiniTwin, status on ticket R-048484`\n"
  ++ "2. Ticket requests — e.g. `MiniTwin, show me all the requests for ticket R-040699`\n"
  ++ "3. Record lookup — e.g. `MiniTwin, is ticket R-040699 logged in the system?`\n"
  ++ "4. Customer history — e.g. `MiniTwin, show all tickets for customer YAM in last 30 days`\n"
  ++ "5. Credit activity — e.g. `MiniTwin, how many credits did I update from Nov 1st to today?`\n"
  ++ "6. Credits with RTN — e.g. `MiniTwin, how many credits have a credit number?`\n"
  ++ "7. Priority tickets — e.g. `MiniTwin, what tickets are priority right now?`\n"
  ++ "8. Credit aging — e.g. `MiniTwin, show the credit aging summary`\n"
  ++ "9. Stalled tickets — e.g. `MiniTwin, which tickets haven\x27t been updated in 7 days?`\n"
  ++ "10. Overall overview — e.g. `MiniTwin, give me a credit overview`\n"
  ++ "11. Top accounts — e.g. `MiniTwin, which accounts have the most credits?`\n"
  ++ "12. Top items — e.g. `MiniTwin, which items have the most credits issued?`\n"
  ++ "13. Credit trends — e.g. `MiniTwin, are there any credit trends worth sharing?`\n"
  ++ "14. Anomalies — e.g. `MiniTwin, any unusual or suspicious credits lately?`\n"

/-- The thirteen handlers after `intent_ticket_requests`, in the registered
order of `INTENTS` (the first entry, the stateful `intent_ticket_requests`,
is threaded separately in `skybar_answer`). -/
def restIntents : List (String → Table → Int → Except String (Option String)) :=
  [intent_ticket_status, intent_record_lookup, intent_customer_tickets,
   intent_credit_activity, intent_rtn_summary, intent_priority_tickets,
   intent_credit_aging, intent_stalled_tickets, intent_overall_summary,
   intent_top_accounts, intent_top_items, intent_credit_trends,
   intent_credit_anomalies]

/-- The dispatch loop of `skybar_answer` (lines 53–63): an exception
propagates; a `(text, df)` pair returns at once, empty text included; a string
returns only when it strips to something non-empty; `None` — and a
blank-stripping string — fall through; exhaustion returns the help text. -/
def dispatchLoop :
    List (Except String IntentReturn) → Except String (String × Option (List Row))
  | [] => .ok (helpText, none)
  | .error e :: _ => .error e
  | .ok (.pair txt tbl) :: _ => .ok (txt, some tbl)
  | .ok (.text txt) :: rest =>
    if pyStrip txt = "" then dispatchLoop rest else .ok (txt, none)
  | .ok .absent :: rest => dispatchLoop rest

/-- The handler results in registered order for one `(query, df, today)`. -/
def skybarResults (query : String) (df : Table) (today : Int) :
    List (Except String IntentReturn) :=
  .ok (toIntentReturn (intent_ticket_requests query df).1)
    :: restIntents.map (fun h => (h query df today).map toIntentReturn)

/-- `skybar.intent_router.skybar_answer`, with the ambient clock and the
`LAST_TICKET_LOOKUP` global made explicit: the envelope (or the escaping
exception), paired with the global state after the call.  The first handler
always runs before any dispatch decision, so its write to the global happens
whether or not it wins. -/
def skybar_answer (query : String) (df : Table) (today : Int) (s : GlobalState) :
    Except String (String × Option (List Row)) × GlobalState :=
  (dispatchLoop (skybarResults query df today),
   match (intent_ticket_requests query df).2 with
   | some v => { lastTicketLookup := v }
   | none => s)

/-! ## Claim-side definitions (worded from the specification, for comparison
with the embedded source functions) -/

/-- Spec wording (§3 invariant, first disjunct): `RTN_CR_No` trimmed and
uppercased is non-empty and not one of the sentinels `NAN, NONE, NULL, NA`. -/
def rtnNonSentinel (cell : String) : Bool :=
  let u := pyUpper (pyStrip cell)
  u ≠ "" && ! ["NAN", "NONE", "NULL", "NA"].contains u

/-- Spec wording (§3 invariant, second disjunct): the `Status` text contains
one of the credit-number evidence phrases. -/
def statusEvidence (status : String) : Bool :=
  let su := pyUpper status
  pyContains su "CREDIT NUMBER" || pyContains su "CREDIT REQUEST NO"
    || pyContains su "RTNCM"

/-- The OR-composed "has a credit number" rule exactly as the claim states
it. -/
def specHasCreditOr (rtnCell statusCell : String) : Bool :=
  rtnNonSentinel rtnCell || statusEvidence statusCell

/-- Claim-side winner test for the dispatch loop: what a handler result must
yield for the iteration to stop there, per the amended reading (pairs always
win; strings win exactly when they strip non-empty; errors propagate). -/
def winOutput :
    Except String IntentReturn → Option (Except String (String × Option (List Row)))
  | .error e => some (.error e)
  | .ok (.pair txt tbl) => some (.ok (txt, some tbl))
  | .ok (.text txt) => if pyStrip txt = "" then none else some (.ok (txt, none))
  | .ok .absent => none

/-- The stall-bucket rule exactly as the claim words it for stalled rows
(`DaysSinceUpdate ≥ N`): `[N, N+7]` first, then the fixed `15–30` up to 30,
then `30+`. -/
def stallBucketSpec (n x : Int) : String :=
  if x ≤ n + 7 then toString n ++ "–" ++ toString (n + 7)
  else if x ≤ 30 then "15–30"
  else "30+"

/-- All-digit non-empty string. -/
def isDigitStr (s : String) : Bool := s ≠ "" && s.data.all Char.isDigit

deriving instance DecidableEq for Except

/-! ## Helper lemmas -/

theorem digit_toNat_bounds (c : Char) (h : c.isDigit = true) :
    48 ≤ c.toNat ∧ c.toNat ≤ 57 := by
  simp only [Char.isDigit, Bool.and_eq_true, decide_eq_true_eq] at h
  exact ⟨UInt32.le_toNat_of_le (by decide) h.1, UInt32.toNat_le_of_le (by decide) h.2⟩

theorem toLower_of_digit (c : Char) (h : c.isDigit = true) : c.toLower = c := by
  have hb := digit_toNat_bounds c h
  unfold Char.toLower
  rw [if_neg]
  rintro ⟨h1, -⟩
  omega

theorem toUpper_of_digit (c : Char) (h : c.isDigit = true) : c.toUpper = c := by
  have hb := digit_toNat_bounds c h
  unfold Char.toUpper
  rw [if_neg]
  rintro ⟨h1, -⟩
  omega

theorem not_ws_of_digit (c : Char) (h : c.isDigit = true) : c.isWhitespace = false := by
  simp only [Char.isWhitespace, Bool.or_eq_false_iff, decide_eq_false_iff_not]
  refine ⟨⟨⟨?_, ?_⟩, ?_⟩, ?_⟩ <;> · rintro rfl; exact absurd h (by decide)

theorem data_append (a b : String) : (a ++ b).data = a.data ++ b.data := rfl

/-! ## C9 — idempotence / state independence -/

/-- C9: for a fixed `(query, table, today)` the router's result — text, table
and even a raised exception — is the same no matter what the hidden
`LAST_TICKET_LOOKUP` state holds, and calling the router twice in a row (the
second call starting from the state the first one left behind) produces the
identical result: the output does not depend on the module-level mutable
state. -/
theorem c9_idempotent_text :
    ∀ (q : String) (df : Table) (today : Int) (s₁ s₂ : GlobalState),
      (skybar_answer q df today s₁).1 = (skybar_answer q df today s₂).1
      ∧ (skybar_answer q df today ((skybar_answer q df today s₁).2)).1
          = (skybar_answer q df today s₁).1 :=
  fun _ _ _ _ _ => ⟨rfl, rfl⟩

/-! ## C1 — the router boundary is *not* exception-free -/

/-- C1 (code bug): on the query "status on R-12" — the `R-\d+` ticket-status
pattern matches, the stricter `R-\d{3,}` ticket-requests pattern does not —
against a table without a `Ticket Number` column, `intent_ticket_status`
evaluates `df["Ticket Number"]` unguarded and the `KeyError` escapes
`skybar_answer`, which has no catch-all. -/
theorem c1_keyerror_escapes :
    (skybar_answer "status on R-12" ({} : Table) 20100 {}).1
      = .error "KeyError: \x27Ticket Number\x27" := by rfl

/-! ## C4 — dispatch: first winning result, but empty strings lose -/

/-- C4 (counterexample): per the claim, a handler result whose text is empty
is a valid winning result and only an absent result passes control onward —
so the loop would return `("", none)` here.  The dispatch loop of
`skybar_answer` instead skips the empty-string result and returns the second
handler's text. -/
theorem c4_counterexample :
    dispatchLoop [.ok (.text ""), .ok (.text "B")] = .ok ("B", none)
    ∧ ¬ dispatchLoop [.ok (.text ""), .ok (.text "B")] = .ok ("", none) := by
  exact ⟨rfl, by decide⟩

/-- C4 (amended): the router evaluates the fourteen registered handlers in
their fixed order through the dispatch loop; a `(text, table)` pair wins even
with empty text, a bare string wins only when it strips non-empty, an
exception propagates, and absent *or whitespace-only string* results pass
control to the next handler; when every result passes, the enumerated
14-intent help message is returned. -/
theorem c4_amended :
    (∀ (q : String) (df : Table) (today : Int) (s : GlobalState),
      (skybar_answer q df today s).1 = dispatchLoop (skybarResults q df today))
    ∧ (∀ rs, (∀ r ∈ rs, winOutput r = none) → dispatchLoop rs = .ok (helpText, none))
    ∧ (∀ pre r rest out, (∀ p ∈ pre, winOutput p = none) → winOutput r = some out →
        dispatchLoop (pre ++ r :: rest) = out) := by
  refine ⟨fun _ _ _ _ => rfl, ?_, ?_⟩
  · intro rs h
    induction rs with
    | nil => rfl
    | cons r rest ih =>
      have hr := h r (List.mem_cons_self r rest)
      have hrest := fun p hp => h p (List.mem_cons_of_mem r hp)
      cases r with
      | error e => simp [winOutput] at hr
      | ok v =>
        cases v with
        | pair t tbl => simp [winOutput] at hr
        | text txt =>
          by_cases he : pyStrip txt = ""
          · simp only [dispatchLoop, if_pos he]; exact ih hrest
          · simp [winOutput, if_neg he] at hr
        | absent => simp only [dispatchLoop]; exact ih hrest
  · intro pre r rest out hpre hw
    induction pre with
    | nil =>
      cases r with
      | error e => cases hw; rfl
      | ok v =>
        cases v with
        | pair t tbl => cases hw; rfl
        | text txt =>
          by_cases he : pyStrip txt = ""
          · simp [winOutput, if_pos he] at hw
          · simp only [winOutput, if_neg he, Option.some.injEq] at hw
            subst hw
            simp only [List.nil_append, dispatchLoop, if_neg he]
        | absent => cases hw
    | cons p pre' ih =>
      have hp := hpre p (List.mem_cons_self p pre')
      have hpre' := fun x hx => hpre x (List.mem_cons_of_mem p hx)
      cases p with
      | error e => simp [winOutput] at hp
      | ok v =>
        cases v with
        | pair t tbl => simp [winOutput] at hp
        | text txt =>
          by_cases he : pyStrip txt = ""
          · simp only [List.cons_append, dispatchLoop, if_pos he]; exact ih hpre'
          · simp [winOutput, if_neg he] at hp
        | absent =>
          simp only [List.cons_append, dispatchLoop]
          exact ih hpre'

/-- C4 witness: two losing results (an absent one and a whitespace-only
string), then a winner. -/
theorem c4_amended_witness :
    dispatchLoop [.ok .absent, .ok (.text " "), .ok (.text "B"), .ok (.text "C")]
      = .ok ("B", none) :=
  c4_amended.2.2 [.ok .absent, .ok (.text " ")] (.ok (.text "B")) [.ok (.text "C")]
    (.ok ("B", none)) (by decide) (by decide)

/-! ## C10 — the envelope's table component -/

theorem dispatchLoop_table_none (rs : List (Except String IntentReturn))
    (h : ∀ r ∈ rs, ∀ t tbl, r ≠ .ok (.pair t tbl)) :
    ∀ txt tbl, dispatchLoop rs = .ok (txt, tbl) → tbl = none := by
  induction rs with
  | nil => intro txt tbl he; cases he; rfl
  | cons r rest ih =>
    intro txt tbl he
    have hrest := fun p hp => h p (List.mem_cons_of_mem r hp)
    cases r with
    | error e => cases he
    | ok v =>
      cases v with
      | pair t tbl' => exact absurd rfl (h _ (List.mem_cons_self _ _) t tbl')
      | text t =>
        by_cases hs : pyStrip t = ""
        · simp only [dispatchLoop, if_pos hs] at he
          exact ih hrest txt tbl he
        · simp only [dispatchLoop, if_neg hs] at he
          cases he; rfl
      | absent =>
        simp only [dispatchLoop] at he
        exact ih hrest txt tbl he

theorem skybarResults_no_pair (q : String) (df : Table) (today : Int) :
    ∀ r ∈ skybarResults q df today, ∀ t tbl, r ≠ .ok (.pair t tbl) := by
  intro r hr t tbl
  unfold skybarResults at hr
  rcases List.mem_cons.mp hr with h | h
  · subst h
    cases (intent_ticket_requests q df).1 <;> simp [toIntentReturn]
  · rcases List.mem_map.mp h with ⟨f, -, rfl⟩
    cases hf : f q df today with
    | error e => simp [hf, Except.map]
    | ok v => cases v <;> simp [hf, Except.map, toIntentReturn]

/-- C10: whenever the router returns an envelope (rather than propagating an
exception), its optional-table component is `None` — every registered handler
returns only text or an absent result, never a `(text, table)` pair — while
the ticket-detail subtable does reach the UI, but only through the
`LAST_TICKET_LOOKUP` global, never through the return value. -/
theorem c10_envelope_table_none :
    (∀ (q : String) (df : Table) (today : Int) (s : GlobalState) (txt : String)
        (tbl : Option (List Row)),
      (skybar_answer q df today s).1 = .ok (txt, tbl) → tbl = none)
    ∧ (∃ (q : String) (df : Table) (s : GlobalState),
        ¬ (skybar_answer q df 0 s).2.lastTicketLookup = none) := by
  constructor
  · intro q df today s txt tbl he
    exact dispatchLoop_table_none _ (skybarResults_no_pair q df today) txt tbl he
  · refine ⟨"R-040699",
      { hasTicket := true, rows := [{ ticketNumber := "R-040699" }] }, {}, ?_⟩
    decide

/-- C10 witness: a concrete dispatch through the full router. -/
theorem c10_witness :
    (skybar_answer "hello" ({} : Table) 0 {}).1 = .ok (helpText, none)
    ∧ (none : Option (List Row)) = none :=
  ⟨rfl, c10_envelope_table_none.1 "hello" {} 0 {} helpText none rfl⟩

/-! ## C6 — stalled-ticket threshold parse and bucketing -/

/-- C6: the stalled threshold `N` is the first `"<N> day"` digit group of the
query (default 7 when no such phrase occurs), and every stalled row — one
whose `Days Since Update` is at least `N` — is bucketed exactly as the claim
words it: `[N, N+7]` when at most `N+7`, else the fixed `15–30` when at most
30, else `30+`; the 15/30 boundaries never depend on `N`. -/
theorem c6_stalled_buckets :
    (∀ q : String, scanNumDay (pyLower q).data = none → stalledDaysOf q = 7)
    ∧ (∀ (q : String) (dg : List Char), scanNumDay (pyLower q).data = some dg →
        stalledDaysOf q = (digitsToNat dg : Int))
    ∧ (∀ n x : Int, n ≤ x → stalled_bucketize n x = stallBucketSpec n x)
    ∧ (∀ (df : Table) (today n : Int) (r : Row), r ∈ stalledSelect df today n →
        ∃ d, daysSinceUpdate df today r = some d ∧ n ≤ d
          ∧ stalled_bucketize n d = stallBucketSpec n d) := by
  refine ⟨?_, ?_, ?_, ?_⟩
  · intro q h; unfold stalledDaysOf; rw [h]
  · intro q dg h; unfold stalledDaysOf; rw [h]
  · intro n x h
    unfold stalled_bucketize stallBucketSpec
    rw [if_neg (by omega)]
  · intro df today n r hr
    have hp := (List.mem_filter.mp hr).2
    cases hd : daysSinceUpdate df today r with
    | none => rw [hd] at hp; simp at hp
    | some d =>
      rw [hd] at hp
      simp only [Bool.and_eq_true, decide_eq_true_eq] at hp
      refine ⟨d, rfl, hp.1, ?_⟩
      unfold stalled_bucketize stallBucketSpec
      rw [if_neg (by omega)]

/-- C6 witness: a concrete "14 day" query, a concrete stalled row. -/
theorem c6_stalled_buckets_witness :
    stalledDaysOf "which tickets have not updated in 14 days?" = ((14 : Nat) : Int)
    ∧ stalled_bucketize 14 25 = stallBucketSpec 14 25 :=
  ⟨c6_stalled_buckets.2.1 "which tickets have not updated in 14 days?" ['1', '4'] rfl,
   c6_stalled_buckets.2.2.1 14 25 (by norm_num)⟩

/-! ## C3 — the "has a credit number" rule differs across handlers -/

/-- C3 (counterexample): a row with an empty `RTN_CR_No` and a `Status`
containing "CREDIT NUMBER" counts as *having* a credit number under the
claim's OR-composed rule, yet `credit_aging` (and `stalled_tickets`) classify
it as open, and `overall_summary` treats the sentinel `"NA"` as a real credit
number; the handlers do not apply one common rule.  Concretely,
`intent_priority_tickets` reports no open ticket on such a table while
`intent_credit_aging` counts the same row as open. -/
theorem c3_counterexample :
    specHasCreditOr "" "Sent to vendor [2024-12-01 10:00:00] CREDIT NUMBER: RTNCM0031274" = true
    ∧ has_rtn_aging "" = false
    ∧ has_rtn_stalled "" = false
    ∧ rtnNonSentinel "NA" = false
    ∧ no_rtn_overall { hasRTN := true } { rtn := "NA" } = false
    ∧ (intent_priority_tickets "priority tickets"
        { hasTicket := true, hasDate := true, hasRTN := true, hasStatus := true,
          rows := [{ ticketNumber := "R-1", date := some 20000, rtn := "",
                     status := "CREDIT NUMBER: RTNCM0031274" }] } 20100).toOption
        = some (some ("Nice! Every ticket with a valid date already has a credit number. "
            ++ "No pending priority tickets."))
    ∧ (agingOpenRows
        { hasTicket := true, hasDate := true, hasRTN := true, hasStatus := true,
          rows := [{ ticketNumber := "R-1", date := some 20000, rtn := "",
                     status := "CREDIT NUMBER: RTNCM0031274" }] } 20100).length = 1 := by
  refine ⟨rfl, rfl, rfl, rfl, rfl, rfl, rfl⟩

theorem isInfixB_iff (p l : List Char) : isInfixB p l = true ↔ p <:+: l := by
  induction l with
  | nil =>
    simp only [isInfixB, List.isEmpty_iff]
    constructor
    · rintro rfl; exact List.infix_refl []
    · intro h; exact List.eq_nil_of_infix_nil h
  | cons a tl ih =>
    simp only [isInfixB, Bool.or_eq_true, List.isPrefixOf_iff_prefix, ih,
      List.infix_cons_iff]

theorem pyContains_mono (s : String) (p q : String) (hpq : p.data <:+: q.data)
    (h : pyContains s q = true) : pyContains s p = true := by
  rw [pyContains, isInfixB_iff] at h ⊢
  exact hpq.trans h

theorem pyUpper_eq_empty_iff (s : String) : pyUpper s = "" ↔ s = "" := by
  cases s with
  | mk d =>
    cases d with
    | nil => exact ⟨fun _ => rfl, fun _ => rfl⟩
    | cons c cs =>
      constructor <;> intro h <;> exact absurd (congrArg String.data h) (by simp [pyUpper])

theorem rtn_sentinel_eq (cell : String) :
    (! ["", "NAN", "NONE", "NULL", "NA"].contains (pyUpper (pyStrip cell)))
      = rtnNonSentinel cell := by
  unfold rtnNonSentinel
  set u := pyUpper (pyStrip cell) with hu
  by_cases h0 : u = ""
  · simp [h0]
  · by_cases h1 : u = "NAN"
    · simp [h1]
    · by_cases h2 : u = "NONE"
      · simp [h2]
      · by_cases h3 : u = "NULL"
        · simp [h3]
        · by_cases h4 : u = "NA"
          · simp [h4]
          · simp [h0, h1, h2, h3, h4]

theorem status_evidence_eq (st : String) :
    (pyContains (pyUpper st) "CREDIT NUMBER" || pyContains (pyUpper st) "CREDIT NUMBERS"
      || pyContains (pyUpper st) "CREDIT REQUEST NO.:"
      || pyContains (pyUpper st) "CREDIT REQUEST NO"
      || pyContains (pyUpper st) "RTNCM") = statusEvidence st := by
  have h1 : pyContains (pyUpper st) "CREDIT NUMBERS" = true →
      pyContains (pyUpper st) "CREDIT NUMBER" = true :=
    fun h => pyContains_mono _ _ _ (by decide) h
  have h2 : pyContains (pyUpper st) "CREDIT REQUEST NO.:" = true →
      pyContains (pyUpper st) "CREDIT REQUEST NO" = true :=
    fun h => pyContains_mono _ _ _ (by decide) h
  unfold statusEvidence
  cases ha : pyContains (pyUpper st) "CREDIT NUMBER"
  · cases hb : pyContains (pyUpper st) "CREDIT NUMBERS"
    · cases hc : pyContains (pyUpper st) "CREDIT REQUEST NO.:"
      · simp [ha, hb, hc]
      · simp [ha, hb, hc, h2 hc]
    · rw [h1 hb] at ha; cases ha
  · simp [ha]

/-- C3 (amended): on tables carrying both columns, `priority_tickets` applies
exactly the OR-composed rule (`RTN_CR_No` non-sentinel OR `Status` evidence);
`credit_aging` and `stalled_tickets` apply only the sentinel test on
`RTN_CR_No` (sentinels `"", NAN, NONE, NULL, NA`), ignoring `Status`; and
`overall_summary` also ignores `Status` and drops `"NA"` from its sentinel
list, so it counts a row as open exactly when the cell is neither a
non-sentinel value nor the string `NA`. -/
theorem c3_amended :
    ∀ (df : Table) (r : Row), df.hasRTN = true → df.hasStatus = true →
      (no_rtn_mask df r = ! specHasCreditOr r.rtn r.status)
      ∧ (has_rtn_aging r.rtn = rtnNonSentinel r.rtn)
      ∧ (has_rtn_stalled r.rtn = rtnNonSentinel r.rtn)
      ∧ (no_rtn_overall df r
          = ! (rtnNonSentinel r.rtn || (pyUpper (pyStrip r.rtn) == "NA"))) := by
  intro df r hR hS
  refine ⟨?_, ?_, ?_, ?_⟩
  · simp only [no_rtn_mask, specHasCreditOr, hR, hS, if_true]
    rw [rtn_sentinel_eq r.rtn, status_evidence_eq r.status]
  · unfold has_rtn_aging rtnNonSentinel
    by_cases he : pyStrip r.rtn = ""
    · simp [he, pyUpper]
    · have hne2 : ¬ pyUpper (pyStrip r.rtn) = "" := fun h =>
        he ((pyUpper_eq_empty_iff _).mp h)
      simp [he, hne2]
  · unfold has_rtn_stalled rtnNonSentinel
    by_cases he : pyStrip r.rtn = ""
    · simp [he, pyUpper]
    · have hne2 : ¬ pyUpper (pyStrip r.rtn) = "" := fun h =>
        he ((pyUpper_eq_empty_iff _).mp h)
      simp [he, hne2]
  · simp only [no_rtn_overall, rtnNonSentinel, hR, if_true]
    set u := pyUpper (pyStrip r.rtn) with hu
    by_cases h0 : u = ""
    · simp [h0]
    · by_cases h1 : u = "NAN"
      · simp [h1]
      · by_cases h2 : u = "NONE"
        · simp [h2]
        · by_cases h3 : u = "NULL"
          · simp [h3]
          · by_cases h4 : u = "NA"
            · simp [h4]
            · simp [h0, h1, h2, h3, h4]

/-- C3 witness: the amended characterisation evaluated on a concrete row. -/
theorem c3_amended_witness :
    no_rtn_mask { hasRTN := true, hasStatus := true }
        { rtn := "", status := "CREDIT NUMBER issued" }
      = ! specHasCreditOr "" "CREDIT NUMBER issued" :=
  (c3_amended { hasRTN := true, hasStatus := true }
    { rtn := "", status := "CREDIT NUMBER issued" } rfl rfl).1

/-! ## C5 — the aging buckets partition the open rows -/

theorem list_sum_map_add (l : List α) (f g : α → Nat) :
    (l.map (fun a => f a + g a)).sum = (l.map f).sum + (l.map g).sum := by
  induction l with
  | nil => rfl
  | cons a as ih => simp [ih]; omega

theorem aging_bucket_indicator (d : Int) (h0 : 0 ≤ d) (h9 : d ≤ 10 ^ 9) :
    (agingLabels.map (fun lab => if agingBucketOf d == some lab then 1 else 0)).sum
      = 1 := by
  unfold agingBucketOf
  rw [if_neg (by omega)]
  split_ifs <;> simp [agingLabels]

theorem aging_bucket_exists_unique (d : Int) (h0 : 0 ≤ d) (h9 : d ≤ 10 ^ 9) :
    ∃! lab, lab ∈ agingLabels ∧ agingBucketOf d = some lab := by
  have hex : ∃ lab, lab ∈ agingLabels ∧ agingBucketOf d = some lab := by
    unfold agingBucketOf
    rw [if_neg (by omega)]
    split_ifs <;> exact ⟨_, by decide, rfl⟩
  obtain ⟨L, hmem, heq⟩ := hex
  exact ⟨L, ⟨hmem, heq⟩, fun y hy => (Option.some.inj (heq.symm.trans hy.2)).symm⟩

theorem aging_count_sum (days : List Int) (h : ∀ d ∈ days, 0 ≤ d ∧ d ≤ 10 ^ 9) :
    (agingLabels.map
      (fun lab => (days.filter (fun d => agingBucketOf d == some lab)).length)).sum
      = days.length := by
  induction days with
  | nil => rfl
  | cons d ds ih =>
    have hd := h d (List.mem_cons_self d ds)
    have hds := fun x hx => h x (List.mem_cons_of_mem d hx)
    have hstep : ∀ lab : String,
        (List.filter (fun x => agingBucketOf x == some lab) (d :: ds)).length
          = (if agingBucketOf d == some lab then 1 else 0)
            + (List.filter (fun x => agingBucketOf x == some lab) ds).length := by
      intro lab
      by_cases hc : (agingBucketOf d == some lab) = true
      · rw [List.filter_cons, if_pos hc, if_pos hc]
        simp [Nat.add_comm]
      · rw [List.filter_cons, if_neg hc, if_neg hc]
        simp
    rw [List.map_congr_left (fun lab _ => hstep lab), list_sum_map_add,
      aging_bucket_indicator d hd.1 hd.2, ih hds]
    simp [Nat.add_comm]

theorem agingDays_nonneg (df : Table) (today : Int) :
    ∀ d ∈ agingDays df today, 0 ≤ d := by
  intro d hd
  obtain ⟨r, hr, rfl⟩ := List.mem_map.mp hd
  have hp := (List.mem_filter.mp hr).2
  simp only [Bool.and_eq_true] at hp
  cases hx : r.date with
  | none => simp [hx] at hp
  | some x =>
    simp [hx] at hp
    obtain ⟨-, h2⟩ := hp
    simp only [Option.getD_some]
    omega

/-- C5: with `Days Open` bounded by the `pd.cut` top bin edge `10^9` (pandas
timestamps keep day differences far below that), every open row's `Days Open`
is non-negative and falls in exactly one of the six fixed buckets —
right-inclusive, lowest-inclusive, no overlap, no gaps — and the per-bucket
counts of `intent_credit_aging` add up to the total number of open rows. -/
theorem c5_aging_partition :
    ∀ (df : Table) (today : Int),
      (∀ d ∈ agingDays df today, d ≤ 10 ^ 9) →
      (∀ d ∈ agingDays df today, 0 ≤ d ∧
          ∃! lab, lab ∈ agingLabels ∧ agingBucketOf d = some lab)
      ∧ ((agingBucketCounts df today).map Prod.snd).sum
          = (agingOpenRows df today).length := by
  intro df today hbound
  have hnn := agingDays_nonneg df today
  constructor
  · intro d hd
    exact ⟨hnn d hd, aging_bucket_exists_unique d (hnn d hd) (hbound d hd)⟩
  · unfold agingBucketCounts
    rw [List.map_map]
    have : (Prod.snd ∘ fun lab => (lab,
        ((agingDays df today).filter (fun d => agingBucketOf d == some lab)).length))
        = fun lab =>
          ((agingDays df today).filter (fun d => agingBucketOf d == some lab)).length :=
      rfl
    rw [this, aging_count_sum _ (fun d hd => ⟨hnn d hd, hbound d hd⟩)]
    unfold agingDays
    exact List.length_map _ _

/-- C5 witness: three open rows aged 3, 20 and 100 days. -/
theorem c5_aging_partition_witness :
    (∀ d ∈ agingDays
        { hasDate := true,
          rows := [{ date := some 20097 }, { date := some 20080 }, { date := some 20000 }] }
        20100, 0 ≤ d ∧ ∃! lab, lab ∈ agingLabels ∧ agingBucketOf d = some lab)
    ∧ ((agingBucketCounts
        { hasDate := true,
          rows := [{ date := some 20097 }, { date := some 20080 }, { date := some 20000 }] }
        20100).map Prod.snd).sum
        = (agingOpenRows
            { hasDate := true,
              rows := [{ date := some 20097 }, { date := some 20080 },
                       { date := some 20000 }] } 20100).length :=
  c5_aging_partition
    { hasDate := true,
      rows := [{ date := some 20097 }, { date := some 20080 }, { date := some 20000 }] }
    20100 (by decide)

/-! ## C7 — anomaly rule: inclusive thresholds on amount and z-score -/

theorem zsq_iff_real (v d : ℚ) (hv : 0 < v) :
    9 * v ≤ d ^ 2 ↔ (3 : ℝ) ≤ |(d : ℝ)| / Real.sqrt (v : ℝ) := by
  have hv' : (0 : ℝ) < (v : ℝ) := by exact_mod_cast hv
  have hs : (0 : ℝ) < Real.sqrt (v : ℝ) := Real.sqrt_pos.mpr hv'
  have hcast : (9 * v ≤ d ^ 2) ↔ ((9 : ℝ) * (v : ℝ) ≤ ((d : ℝ)) ^ 2) := by
    constructor <;> intro h <;> exact_mod_cast h
  rw [hcast, le_div_iff₀ hs]
  have hsqmul : (3 * Real.sqrt (v : ℝ)) ^ 2 = 9 * (v : ℝ) := by
    rw [mul_pow, Real.sq_sqrt hv'.le]
    ring
  constructor
  · intro h
    have h1 : Real.sqrt (9 * (v : ℝ)) ≤ Real.sqrt (((d : ℝ)) ^ 2) := Real.sqrt_le_sqrt h
    rw [Real.sqrt_sq_eq_abs, ← hsqmul,
      Real.sqrt_sq (by positivity : (0 : ℝ) ≤ 3 * Real.sqrt (v : ℝ))] at h1
    exact h1
  · intro h
    have h1 : (3 * Real.sqrt (v : ℝ)) ^ 2 ≤ |(d : ℝ)| ^ 2 :=
      pow_le_pow_left₀ (by positivity) h 2
    rw [hsqmul, sq_abs] at h1
    exact h1

/-- C7: a window row is in the anomaly filter iff it satisfies the row flag
for the window's mean and sample variance; for a positive variance the flag
holds exactly when both `|amount| ≥ 500` and `|z| ≥ 3` hold for the real
z-score `(x - mu)/sqrt v` — both thresholds inclusive: amount exactly 500
with `z` exactly 3 is flagged, and amount `499.99` is never flagged, whatever
its z-score. -/
theorem c7_anomaly_thresholds :
    (∀ (w : List ℚ) (x : ℚ), x ∈ anomalyFilter w ↔
        x ∈ w ∧ anomalyRowFlag (sampleVar w) (listMean w) x = true)
    ∧ (∀ (v mu x : ℚ), 0 < v →
        (anomalyRowFlag (some v) mu x = true ↔
          500 ≤ |x| ∧ (3 : ℝ) ≤ |(x : ℝ) - (mu : ℝ)| / Real.sqrt (v : ℝ)))
    ∧ (∀ (v mu x : ℚ), 0 < v → |x| = 500 → (x - mu) ^ 2 = 9 * v →
        anomalyRowFlag (some v) mu x = true)
    ∧ (∀ (v? : Option ℚ) (mu : ℚ), anomalyRowFlag v? mu (49999 / 100) = false) := by
  refine ⟨?_, ?_, ?_, ?_⟩
  · intro w x
    unfold anomalyFilter
    exact List.mem_filter.trans (by simp)
  · intro v mu x hv
    unfold anomalyRowFlag zAbsGe3
    rw [Bool.and_eq_true, decide_eq_true_eq, decide_eq_true_eq]
    have := zsq_iff_real v (x - mu) hv
    rw [this]
    push_cast
    rfl
  · intro v mu x hv h500 hsq
    unfold anomalyRowFlag zAbsGe3
    rw [Bool.and_eq_true, decide_eq_true_eq, decide_eq_true_eq]
    exact ⟨le_of_eq h500.symm, le_of_eq hsq.symm⟩
  · intro v? mu
    have hlt : ¬ (500 : ℚ) ≤ |49999 / 100| := by
      rw [abs_of_pos (by norm_num)]
      norm_num
    unfold anomalyRowFlag
    simp [hlt]

/-- C7 witness: amount exactly 500 at z exactly 3 (variance 250000/9). -/
theorem c7_anomaly_thresholds_witness :
    anomalyRowFlag (some (250000 / 9)) 0 500 = true :=
  c7_anomaly_thresholds.2.2.1 (250000 / 9) 0 500 (by norm_num)
    (by rw [abs_of_pos (by norm_num)]) (by norm_num)

/-! ## C8 — identical window values and the zero-variance guard -/

theorem std_zero_of_const (l : List ℚ) (h2 : 2 ≤ l.length)
    (hall : ∀ a ∈ l, ∀ b ∈ l, a = b) : stdIsZero l = true := by
  obtain ⟨a, rest, rfl⟩ : ∃ a rest, l = a :: rest := by
    cases l with
    | nil => simp at h2
    | cons a rest => exact ⟨a, rest, rfl⟩
  set l := a :: rest
  have hc : ∀ x ∈ l, x = a := fun x hx => hall x hx a (List.mem_cons_self a rest)
  have hsum : l.sum = l.length • a := List.sum_eq_card_nsmul l a hc
  have hn : (l.length : ℚ) ≠ 0 := by
    simp only [ne_eq, Nat.cast_eq_zero]
    omega
  have hmean : listMean l = a := by
    unfold listMean
    rw [hsum, nsmul_eq_mul]
    exact mul_div_cancel_left₀ a hn
  have hzero : (l.map (fun x => (x - listMean l) ^ 2)).sum = 0 := by
    apply List.sum_eq_zero
    intro y hy
    obtain ⟨x, hx, rfl⟩ := List.mem_map.mp hy
    rw [hmean, hc x hx]
    ring
  unfold stdIsZero sampleVar
  rw [if_neg (by omega), hzero]
  simp

/-- C8 (counterexample): the trailing-90-day window of this table holds the
single value 500 — all its values are identical — yet the handler answers
with the no-anomalies-found text, not the "no clear anomalies" text: with one
value the `ddof = 1` standard deviation is NaN, `NaN == 0` is False, and the
NaN z-score fails every comparison. -/
theorem c8_counterexample :
    intent_credit_anomalies "any unusual credits?"
        { hasDate := true, hasTotal := true,
          rows := [{ date := some 20000, total := some 500 }] } 0
      = .ok (some ("I don\x27t see any large, statistically unusual credits in the "
        ++ "last 90 days (amount ≥ " ++ format_money 500 ++ ", |z| ≥ 3.0)."))
    ∧ (anomalyRecentRows
        { hasDate := true, hasTotal := true,
          rows := [{ date := some 20000, total := some 500 }] }).map
        (amtFilled
          { hasDate := true, hasTotal := true,
            rows := [{ date := some 20000, total := some 500 }] }) = [500]
    ∧ ¬ intent_credit_anomalies "any unusual credits?"
        { hasDate := true, hasTotal := true,
          rows := [{ date := some 20000, total := some 500 }] } 0
      = .ok (some "All recent credits are roughly the same size – no clear anomalies.") :=
  ⟨rfl, rfl, by decide⟩

/-- C8 (amended): a window of at least two rows whose coerced
`CreditRequestTotal` values are all identical has sample variance zero, so
the handler takes the `std() == 0` guard and returns the "no clear anomalies"
text without ever forming a z-score quotient; a one-row window instead has
NaN standard deviation and falls through to the ordinary
no-anomalies-found reply (see the counterexample) — in neither case is a
division by a zero deviation performed. -/
theorem c8_amended :
    (∀ l : List ℚ, 2 ≤ l.length → (∀ a ∈ l, ∀ b ∈ l, a = b) → stdIsZero l = true)
    ∧ (∀ (df : Table) (q : String) (today : Int),
        df.hasDate = true → df.hasTotal = true →
        pyContains (pyLower q) "unusual" = true →
        pyContains (pyLower q) "credit" = true →
        2 ≤ (anomalyRecentRows df).length →
        (∀ a ∈ (anomalyRecentRows df).map (amtFilled df),
          ∀ b ∈ (anomalyRecentRows df).map (amtFilled df), a = b) →
        intent_credit_anomalies q df today
          = .ok (some "All recent credits are roughly the same size – no clear anomalies.")) := by
  refine ⟨std_zero_of_const, ?_⟩
  intro df q today hD hT hU hC h2 hall
  have hstd : stdIsZero ((anomalyRecentRows df).map (amtFilled df)) = true :=
    std_zero_of_const _ (by rw [List.length_map]; exact h2) hall
  have hrec : (anomalyRecentRows df).isEmpty = false := by
    cases hr : anomalyRecentRows df with
    | nil => rw [hr] at h2; simp at h2
    | cons x xs => rfl
  have hdv : (df.rows.filter (fun r => r.date.isSome)).isEmpty = false := by
    cases hd : df.rows.filter (fun r => r.date.isSome) with
    | nil =>
      have : anomalyRecentRows df = [] := by
        unfold anomalyRecentRows
        rw [hd]
        rfl
      rw [this] at h2
      simp at h2
    | cons x xs => rfl
  unfold intent_credit_anomalies
  rw [if_neg (by simp [hU]), if_neg (by simp [hC]), if_neg (by simp [hD, hT]),
    if_neg (by simp [hdv]), if_neg (by simp [hrec]), if_pos hstd]

/-- C8 witness: two identical 500-dollar rows inside the window. -/
theorem c8_amended_witness :
    intent_credit_anomalies "any unusual credits?"
        { hasDate := true, hasTotal := true,
          rows := [{ date := some 20000, total := some 500 },
                   { date := some 20001, total := some 500 }] } 0
      = .ok (some "All recent credits are roughly the same size – no clear anomalies.") :=
  c8_amended.2
    { hasDate := true, hasTotal := true,
      rows := [{ date := some 20000, total := some 500 },
               { date := some 20001, total := some 500 }] }
    "any unusual credits?" 0 rfl rfl rfl rfl (by decide) (by decide)

/-! ## C2 — ticket-detail and ticket-status lookup -/

theorem splitDigits_all (ds : List Char) (hd : ∀ c ∈ ds, c.isDigit = true) :
    splitDigits ds = (ds, []) := by
  induction ds with
  | nil => rfl
  | cons c cs ih =>
    unfold splitDigits
    rw [if_pos (hd c (List.mem_cons_self c cs)),
      ih (fun x hx => hd x (List.mem_cons_of_mem c hx))]

theorem scanTickets3_nil (n : Nat) : scanTickets3 n [] = [] := by
  cases n <;> rfl

theorem scanTickets3_exact (ds : List Char) (hd : ∀ c ∈ ds, c.isDigit = true)
    (hl : 3 ≤ ds.length) (n : Nat) :
    scanTickets3 (n + 1) ('R' :: '-' :: ds) = ['R' :: '-' :: ds] := by
  unfold scanTickets3
  rw [if_pos (Or.inl rfl)]
  show (if ('-' : Char) = '-' then
      let p := splitDigits ds
      if 3 ≤ p.1.length then ('R' :: '-' :: p.1) :: scanTickets3 n p.2
      else scanTickets3 n ('-' :: ds)
    else scanTickets3 n ('-' :: ds)) = ['R' :: '-' :: ds]
  rw [if_pos rfl, splitDigits_all ds hd]
  rw [if_pos hl, scanTickets3_nil]

theorem scanTicket1_exact (ds : List Char) (hd : ∀ c ∈ ds, c.isDigit = true)
    (hl : 1 ≤ ds.length) :
    scanTicket1 ('R' :: '-' :: ds) = some ('R' :: '-' :: ds) := by
  unfold scanTicket1
  rw [if_pos (Or.inl rfl)]
  show (if ('-' : Char) = '-' then
      let p := splitDigits ds
      if 1 ≤ p.1.length then some ('R' :: '-' :: p.1) else scanTicket1 ('-' :: ds)
    else scanTicket1 ('-' :: ds)) = some ('R' :: '-' :: ds)
  rw [if_pos rfl, splitDigits_all ds hd]
  rw [if_pos hl]

theorem map_id_of_fix (f : Char → Char) (l : List Char) (h : ∀ c ∈ l, f c = c) :
    l.map f = l :=
  (List.map_congr_left h).trans (List.map_id l)

theorem dropWhile_eq_self_of_all (p : Char → Bool) (l : List Char)
    (h : ∀ c ∈ l, p c = false) : l.dropWhile p = l := by
  cases l with
  | nil => rfl
  | cons c cs =>
    rw [List.dropWhile_cons, if_neg]
    simp [h c (List.mem_cons_self c cs)]

theorem pyStrip_of_no_ws (s : String) (h : ∀ c ∈ s.data, c.isWhitespace = false) :
    pyStrip s = s := by
  cases s with
  | mk l =>
    unfold pyStrip
    rw [dropWhile_eq_self_of_all _ l h,
      dropWhile_eq_self_of_all _ l.reverse (fun c hc => h c (List.mem_reverse.mp hc)),
      List.reverse_reverse]

theorem rTicket_chars (d : String) (hdig : isDigitStr d = true) :
    ∀ c ∈ ("R-" ++ d).data, c.isWhitespace = false ∧ c.toUpper = c := by
  have hall : ∀ c ∈ d.data, c.isDigit = true := by
    unfold isDigitStr at hdig
    simp only [Bool.and_eq_true, List.all_eq_true, decide_eq_true_eq] at hdig
    exact fun c hc => hdig.2 c hc
  intro c hc
  rw [data_append] at hc
  rcases List.mem_append.mp hc with hc | hc
  · simp only [List.mem_cons, List.not_mem_nil, or_false] at hc
    rcases hc with rfl | rfl
    · exact ⟨by decide, by decide⟩
    · exact ⟨by decide, by decide⟩
  · exact ⟨not_ws_of_digit c (hall c hc), toUpper_of_digit c (hall c hc)⟩

theorem pyUpper_rTicket (d : String) (hdig : isDigitStr d = true) :
    pyUpper ("R-" ++ d) = "R-" ++ d := by
  cases hs : ("R-" ++ d) with
  | mk l =>
    unfold pyUpper
    rw [map_id_of_fix _ l (fun c hc => by
      have := (rTicket_chars d hdig c (by rw [hs]; exact hc)).2
      exact this)]

theorem pyStrip_rTicket (d : String) (hdig : isDigitStr d = true) :
    pyStrip ("R-" ++ d) = "R-" ++ d :=
  pyStrip_of_no_ws _ (fun c hc => (rTicket_chars d hdig c hc).1)

theorem pyLower_rTicket_contains (d : String) (hdig : isDigitStr d = true) :
    pyContains (pyLower ("R-" ++ d)) "r-" = true := by
  have hall : ∀ c ∈ d.data, c.isDigit = true := by
    unfold isDigitStr at hdig
    simp only [Bool.and_eq_true, List.all_eq_true, decide_eq_true_eq] at hdig
    exact fun c hc => hdig.2 c hc
  have hdata : (pyLower ("R-" ++ d)).data = 'r' :: '-' :: d.data.map Char.toLower := by
    simp [pyLower, data_append]
  unfold pyContains
  rw [hdata]
  unfold isInfixB
  rw [Bool.or_eq_true]
  left
  simp [List.isPrefixOf]

theorem rTicket_data (d : String) : ("R-" ++ d).data = 'R' :: '-' :: d.data := rfl

theorem findTickets3_rTicket (d : String) (hdig : isDigitStr d = true)
    (hl : 3 ≤ pyLen d) : findTickets3 ("R-" ++ d) = ["R-" ++ d] := by
  have hall : ∀ c ∈ d.data, c.isDigit = true := by
    unfold isDigitStr at hdig
    simp only [Bool.and_eq_true, List.all_eq_true, decide_eq_true_eq] at hdig
    exact fun c hc => hdig.2 c hc
  unfold findTickets3
  rw [rTicket_data]
  have hlen : ('R' :: '-' :: d.data).length = d.data.length + 2 := by simp
  rw [hlen]
  rw [show d.data.length + 2 = (d.data.length + 1) + 1 from rfl]
  rw [scanTickets3_exact d.data hall hl]
  rfl

theorem searchTicket1_rTicket (d : String) (hdig : isDigitStr d = true)
    (hl : 3 ≤ pyLen d) : searchTicket1 ("R-" ++ d) = some ("R-" ++ d) := by
  have hall : ∀ c ∈ d.data, c.isDigit = true := by
    unfold isDigitStr at hdig
    simp only [Bool.and_eq_true, List.all_eq_true, decide_eq_true_eq] at hdig
    exact fun c hc => hdig.2 c hc
  unfold searchTicket1
  rw [rTicket_data, scanTicket1_exact d.data hall (by unfold pyLen at hl; omega)]
  rfl

/-- C2 (counterexample): the ticket "R-12" (two digits) — the ticket-status
pattern `R-\d+` finds it in the query "R-12", the normalized `Ticket Number`
column contains it, yet the ticket-detail handler returns an absent result:
its trigger needs `R-` followed by at least *three* digits, not one. -/
theorem c2_counterexample :
    searchTicket1 "R-12" = some "R-12"
    ∧ pyStrip (pyUpper "R-12") = "R-12"
    ∧ (intent_ticket_requests "R-12"
        { hasTicket := true, rows := [{ ticketNumber := "R-12" }] }).1 = none :=
  ⟨rfl, rfl, rfl⟩

/-- C2 (amended): for every all-digit ticket suffix `d` of at least three
digits whose full id `R-<d>` appears (after upper-case and trim) in the
`Ticket Number` column, the query `"R-<d>"` makes the ticket-detail handler
return a non-absent text and store exactly the rows whose normalized
`Ticket Number` equals `R-<d>` in `LAST_TICKET_LOOKUP` (the subtable is
published through that global, not through the return value, and no running
total is computed there — `intent_ticket_status` is the handler that reports
the credit total), and the ticket-status handler also returns a non-absent
result. -/
theorem c2_amended :
    ∀ (df : Table) (d : String) (today : Int),
      df.hasTicket = true → isDigitStr d = true → 3 ≤ pyLen d →
      (∃ r ∈ df.rows, pyStrip (pyUpper r.ticketNumber) = "R-" ++ d) →
      (∃ txt, (intent_ticket_requests ("R-" ++ d) df).1 = some txt)
      ∧ (intent_ticket_requests ("R-" ++ d) df).2
          = some (some (df.rows.filter
              (fun r => pyStrip (pyUpper r.ticketNumber) == "R-" ++ d)))
      ∧ (∃ txt2, intent_ticket_status ("R-" ++ d) df today = .ok (some txt2)) := by
  intro df d today hT hdig hlen hex
  have hsubne : (df.rows.filter
      (fun r => pyStrip (pyUpper r.ticketNumber) == "R-" ++ d)).isEmpty = false := by
    obtain ⟨r, hr, hrt⟩ := hex
    have hmem : r ∈ df.rows.filter
        (fun r => pyStrip (pyUpper r.ticketNumber) == "R-" ++ d) :=
      List.mem_filter.mpr ⟨hr, by simp [hrt]⟩
    cases hfe : (df.rows.filter
        (fun r => pyStrip (pyUpper r.ticketNumber) == "R-" ++ d)).isEmpty with
    | false => rfl
    | true =>
      rw [List.isEmpty_iff] at hfe
      rw [hfe] at hmem
      exact absurd hmem (List.not_mem_nil r)
  refine ⟨?_, ?_, ?_⟩
  · simp only [intent_ticket_requests, pyLower_rTicket_contains d hdig,
      findTickets3_rTicket d hdig hlen, pyUpper_rTicket d hdig,
      pyStrip_rTicket d hdig, hT, hsubne, Bool.not_true, Bool.false_and,
      Bool.and_false, Bool.ite_eq_true_distrib, if_false, List.isEmpty_cons,
      List.map_cons, List.map_nil, List.foldl_cons, List.foldl_nil]
    simp [hsubne]
  · simp only [intent_ticket_requests, pyLower_rTicket_contains d hdig,
      findTickets3_rTicket d hdig hlen, pyUpper_rTicket d hdig,
      pyStrip_rTicket d hdig, hT, hsubne, Bool.not_true, Bool.false_and,
      Bool.and_false, if_false, List.isEmpty_cons,
      List.map_cons, List.map_nil, List.foldl_cons, List.foldl_nil]
    simp [hsubne]
  · simp only [intent_ticket_status, searchTicket1_rTicket d hdig hlen,
      pyUpper_rTicket d hdig, hT, Bool.not_true, if_false]
    cases hfe : (df.rows.filter
        (fun r => pyUpper r.ticketNumber == "R-" ++ d)).isEmpty with
    | true => simp [hfe]
    | false => simp [hfe]

/-- C2 witness: the three-digit ticket `R-123` present in the column. -/
theorem c2_amended_witness :
    ((∃ txt, (intent_ticket_requests "R-123"
        { hasTicket := true, rows := [{ ticketNumber := " r-123 " }] }).1 = some txt)
    ∧ (intent_ticket_requests "R-123"
        { hasTicket := true, rows := [{ ticketNumber := " r-123 " }] }).2
        = some (some (List.filter
            (fun r => pyStrip (pyUpper r.ticketNumber) == "R-" ++ "123")
            [{ ticketNumber := " r-123 " }]))
    ∧ (∃ txt2, intent_ticket_status "R-123"
        { hasTicket := true, rows := [{ ticketNumber := " r-123 " }] } 0
        = .ok (some txt2))) :=
  c2_amended { hasTicket := true, rows := [{ ticketNumber := " r-123 " }] } "123" 0
    rfl (by decide) (by decide) ⟨{ ticketNumber := " r-123 " }, by simp, by decide⟩
